import Mathlib

/-!
Verification model of the document-management microservice
(`RitinaADM/grpc_microservice`).

The development shallowly embeds the parts of the repository that the
checked properties speak about:

* the domain entity model (`src/domain/models/document.py`);
* the validated DTOs wired into the gRPC inbound adapter
  (`src/domain/dtos/document.py`);
* the two repository backends, the MongoDB adapter
  (`src/infra/adapters/outbound/mongo/adapter.py`) storing each document
  as one record with an embedded version list, and the SQL adapter
  (`src/infra/adapters/outbound/sql/adapter.py` together with
  `src/infra/adapters/outbound/sql/mapper.py`) storing documents and
  versions in two related tables;
* the Redis cache adapter (`src/infra/adapters/outbound/redis/adapter.py`),
  including its exception discipline: only `RedisError` is caught, while a
  serialization error raised inside a cache method propagates;
* the orchestrating `DocumentService`
  (`src/application/document/service.py`).

Modelling conventions: UUIDs and timestamps are `Nat` (the code only ever
compares them for equality or orders timestamps); Python `None` becomes
`Option`; a raised exception becomes the error side of `Except`; the
fresh values produced by `uuid4()` / `datetime.utcnow()` inside an
operation are passed in as explicit arguments.  Redis availability is an
explicit schedule of booleans, one per Redis client call, `false` meaning
the call raises `RedisError`; an exhausted schedule means every further
call succeeds.
-/

namespace GrpcMicroservice

/-- `DocumentStatus` (`src/domain/models/document.py`): draft, published,
archived. -/
inductive DocumentStatus where
  | draft
  | published
  | archived
deriving DecidableEq, Repr

/-- `DocumentMetadata` (`src/domain/models/document.py`): author, tags,
optional category. -/
structure DocumentMetadata where
  author : String
  tags : List String
  category : Option String
deriving DecidableEq, Repr

/-- `DocumentVersion` (`src/domain/models/document.py`, lines 17-22).
Note the field list: `version_id`, `content`, `metadata`, `comments`,
`timestamp`.  There is no `title` and no `status` field. -/
structure DocumentVersion where
  version_id : Nat
  content : String
  metadata : DocumentMetadata
  comments : List String
  timestamp : Nat
deriving DecidableEq, Repr

/-- `Document` (`src/domain/models/document.py`, lines 24-34). -/
structure Document where
  id : Nat
  title : String
  content : String
  status : DocumentStatus
  metadata : DocumentMetadata
  comments : List String
  versions : List DocumentVersion
  created_at : Nat
  updated_at : Nat
  is_deleted : Bool
deriving DecidableEq, Repr

/-- Whitespace as Python `str.strip()` sees it (ASCII range). -/
def isPyWhitespace (c : Char) : Bool :=
  c == ' ' || c == '\t' || c == '\n' || c == '\r' ||
    c == (Char.ofNat 11) || c == (Char.ofNat 12)

/-- Drop leading whitespace characters. -/
def dropPyWhitespace : List Char → List Char
  | [] => []
  | c :: cs => if isPyWhitespace c then dropPyWhitespace cs else c :: cs

/-- Python `str.strip()` with no argument: remove leading and trailing
whitespace. -/
def pyStrip (s : String) : String :=
  ⟨(dropPyWhitespace (dropPyWhitespace s.data).reverse).reverse⟩

/-- Raw input of `DocumentCreateDTO` (`src/domain/dtos/document.py`,
lines 6-25), the DTO the gRPC inbound adapter constructs for
`CreateDocument`.  Fields: title, content, status, author, tags,
category, comments. -/
structure DocumentCreateInput where
  title : String
  content : String
  status : DocumentStatus
  author : String
  tags : List String
  category : Option String
  comments : List String
deriving DecidableEq, Repr

/-- Validation of `DocumentCreateDTO` (`src/domain/dtos/document.py`):
`check_not_empty` rejects `title`, `content`, `author` whose `strip()` is
empty; the `author` field constraint is `min_length=1, max_length=100`;
`check_comments_not_empty` rejects a comments entry `v` only when
`v and not v.strip()` holds, i.e. when `v` is non-empty (truthy) but
whitespace-only. -/
def documentCreateDTOValidate (d : DocumentCreateInput) :
    Except String DocumentCreateInput :=
  if pyStrip d.title = "" then .error "Field cannot be empty"
  else if pyStrip d.content = "" then .error "Field cannot be empty"
  else if pyStrip d.author = "" then .error "Field cannot be empty"
  else if d.author.length < 1 ∨ d.author.length > 100 then
    .error "author length out of range"
  else if d.comments.any (fun v => v ≠ "" && pyStrip v = "") then
    .error "Comment cannot be empty"
  else .ok d

/-- Raw input of the domain `DocumentUpdateDTO`
(`src/domain/dtos/document.py`, lines 27-46), the DTO the gRPC inbound
adapter constructs for `UpdateDocument`.  Every field is optional. -/
structure DocumentUpdateInput where
  title : Option String := none
  content : Option String := none
  status : Option DocumentStatus := none
  author : Option String := none
  tags : Option (List String) := none
  category : Option String := none
  comments : Option (List String) := none
deriving DecidableEq, Repr

/-- Validation of the domain `DocumentUpdateDTO`
(`src/domain/dtos/document.py`): `prevent_empty_string` rejects `title`,
`content`, `author` only when the supplied value equals the empty string
`""` (a whitespace-only value passes); the field constraints add
`min_length=1` (subsumed by the empty-string check) and
`max_length=255` / `max_length=100` bounds; `check_non_empty_comments`
rejects a comments entry only when it is non-empty but
whitespace-only. -/
def documentUpdateDTOValidate (d : DocumentUpdateInput) :
    Except String DocumentUpdateInput :=
  if d.title = some "" then .error "Field cannot be empty"
  else if (d.title.getD "x").length > 255 then .error "title too long"
  else if d.content = some "" then .error "Field cannot be empty"
  else if d.author = some "" then .error "Field cannot be empty"
  else if (d.author.getD "x").length > 100 then .error "author too long"
  else if (d.comments.getD []).any (fun v => v ≠ "" && pyStrip v = "") then
    .error "Comment cannot be empty"
  else .ok d

/-- Validation of the domain `DocumentListDTO`
(`src/domain/dtos/document.py`, lines 48-50): `skip` carries `ge=0` and
`limit` carries `ge=1, le=100`.  This is the DTO constructed by the gRPC
inbound adapter (`src/infra/adapters/inbound/grpc/adapter.py`, method
`ListDocuments`) before the service is called. -/
def documentListDTOValidate (skip limit : Int) : Except String (Nat × Nat) :=
  if skip < 0 then .error "skip must be greater than or equal to 0"
  else if limit < 1 ∨ limit > 100 then .error "limit out of range"
  else .ok (skip.toNat, limit.toNat)

/-- A Python exception raised by the infrastructure code and not caught
by it: the `AttributeError` raised when code reads an attribute an object
does not have, and the `KeyError` raised when a dict is indexed with a
missing key. -/
inductive PyError where
  | keyError
  | attributeError
deriving DecidableEq, Repr

/-- Evaluate a fallible mapping over every element of a list, stopping at
the first raised exception — the semantics of a Python list comprehension
whose body may raise. -/
def mapExcept {α β ε : Type} (f : α → Except ε β) : List α → Except ε (List β)
  | [] => .ok []
  | a :: as =>
    match f a with
    | .error e => .error e
    | .ok b =>
      match mapExcept f as with
      | .error e => .error e
      | .ok bs => .ok (b :: bs)

/-! ## MongoDB backend

`MongoDocument` (`src/infra/adapters/outbound/mongo/models.py`) carries
field for field the same data as the domain `Document` (id, title,
content, status, metadata, comments, versions, created_at, updated_at,
is_deleted), so the Mongo collection is modelled as a list of `Document`
values in insertion (natural) order.

The adapter's update payload is the domain `DocumentUpdateDTO`
(`DocumentUpdateInput` here) that the gRPC inbound adapter and the tests
construct; it has no `metadata` attribute, so the adapter's
`data.metadata` read raises `AttributeError`.  The adapter's mapper
(`src/infra/adapters/outbound/mongo/mapper.py`) reads
`mongo_doc.author`/`tags`/`category` — attributes `MongoDocument` does
not define — and `document.author`, absent from the domain `Document`, so
every mapping of a record raises `AttributeError` as well. -/

/-- The MongoDB collection: `Document` records in insertion order. -/
abbrev MongoDB := List Document

/-- The `DocumentVersion(...)` snapshot value `MongoDocumentAdapter.update`
constructs from the record it found (`mongo/adapter.py`, lines 84-90): the
record's current `content`, `metadata` and `comments` with a fresh version
id and the current time.  `DocumentVersion` has no `status` or `title`
field, so neither is captured.  The source appends this value to the
in-memory record and then raises before `save()` (see
`MongoAdapter.update`), so it is never persisted. -/
def mongoSnapshotOf (d : Document) (vid t : Nat) : DocumentVersion :=
  { version_id := vid, content := d.content, metadata := d.metadata,
    comments := d.comments, timestamp := t }

namespace MongoMapper

/-- `MongoMapper.to_domain_document`
(`src/infra/adapters/outbound/mongo/mapper.py`, lines 9-26) on a found
record: its first field read is `mongo_doc.author`, an attribute
`MongoDocument` (`models.py`) does not define, so it raises
`AttributeError` for every record. -/
def to_domain_document (mongo_doc : Document) : Except PyError Document :=
  .error .attributeError

/-- `MongoMapper.to_mongo_document`
(`src/infra/adapters/outbound/mongo/mapper.py`, lines 28-43): reads
`document.author`, an attribute the domain `Document` does not define, so
it raises `AttributeError` for every document. -/
def to_mongo_document (document : Document) : Except PyError Document :=
  .error .attributeError

end MongoMapper

namespace MongoAdapter

/-- `MongoDocument.find_one(id == i, is_deleted == False)`:
first record with the given id that is not soft-deleted. -/
def findOne (db : MongoDB) (i : Nat) : Option Document :=
  db.find? (fun d => d.id == i && !d.is_deleted)

/-- `MongoDocumentAdapter.get_by_id`
(`src/infra/adapters/outbound/mongo/adapter.py`, lines 25-38): find a
non-deleted record by id; `None` when absent, otherwise the result of the
mapper — which raises `AttributeError` on every record. -/
def get_by_id (db : MongoDB) (i : Nat) : Except PyError (Option Document) :=
  match findOne db i with
  | none => .ok none
  | some d => (MongoMapper.to_domain_document d).map some

/-- `MongoDocumentAdapter.update`
(`src/infra/adapters/outbound/mongo/adapter.py`, lines 67-119): find the
first non-deleted record with the id; `None` when absent.  When found,
the source builds the snapshot (`mongoSnapshotOf`), appends it to the
in-memory record and assigns `title`/`content`/`status`, then reads
`data.metadata` — an attribute the update DTO does not define — raising
`AttributeError` before `save()` runs, so the store is unchanged and the
in-memory work is discarded. -/
def update (db : MongoDB) (i : Nat) (data : DocumentUpdateInput) :
    MongoDB × Except PyError (Option Document) :=
  match findOne db i with
  | none => (db, .ok none)
  | some _ => (db, .error .attributeError)

/-- `MongoDocumentAdapter.delete`
(`src/infra/adapters/outbound/mongo/adapter.py`, lines 127-144): find the
first non-deleted record with the id; when found, set `is_deleted` and
`updated_at` and return `True`; otherwise return `False`.  No mapper or
DTO access — this method cannot raise. -/
def delete (db : MongoDB) (i t : Nat) : MongoDB × Bool :=
  match db with
  | [] => ([], false)
  | d :: rest =>
    if d.id == i && !d.is_deleted then
      ({ d with is_deleted := true, updated_at := t } :: rest, true)
    else
      let (rest', r) := delete rest i t
      (d :: rest', r)

/-- `MongoDocumentAdapter.restore`
(`src/infra/adapters/outbound/mongo/adapter.py`, lines 173-191): find the
first record with the id whose `is_deleted` is `True`; `None` when
absent.  When found, the source clears the flag, sets `updated_at` and
`save()`s — the store change persists — and only then maps the record for
the return value, which raises `AttributeError`. -/
def restore (db : MongoDB) (i t : Nat) :
    MongoDB × Except PyError (Option Document) :=
  match db with
  | [] => ([], .ok none)
  | d :: rest =>
    if d.id == i && d.is_deleted then
      let d' := { d with is_deleted := false, updated_at := t }
      (d' :: rest, (MongoMapper.to_domain_document d').map some)
    else
      let (rest', r) := restore rest i t
      (d :: rest', r)

/-- `MongoDocumentAdapter.create`
(`src/infra/adapters/outbound/mongo/adapter.py`, lines 46-59): the source
first maps the document with `to_mongo_document`, which raises
`AttributeError` (it reads `document.author`), so the insert never runs
and the store is unchanged. -/
def create (db : MongoDB) (d : Document) : MongoDB × Except PyError Document :=
  match MongoMapper.to_mongo_document d with
  | .error e => (db, .error e)
  | .ok md => (db ++ [md], .ok d)

/-- `MongoDocumentAdapter.list_documents`
(`src/infra/adapters/outbound/mongo/adapter.py`, lines 152-165):
`find(is_deleted == False).skip(skip).limit(limit)` — the non-deleted
records in natural order restricted to the window (no sort stage) — then
a list comprehension mapping each record, which raises `AttributeError`
at the first record of any non-empty window. -/
def list_documents (db : MongoDB) (skip limit : Nat) :
    Except PyError (List Document) :=
  mapExcept MongoMapper.to_domain_document
    (((db.filter (fun d => !d.is_deleted)).drop skip).take limit)

end MongoAdapter

/-! ## SQL backend

`SQLDocument` and `SQLDocumentVersion`
(`src/infra/adapters/outbound/sql/models.py`) are two related tables; the
`document_metadata` JSON column holds the author/tags/category record.
Rows are modelled in insertion order. -/

/-- A row of the `documents` table
(`src/infra/adapters/outbound/sql/models.py`, lines 18-29). -/
structure SQLDocRow where
  id : Nat
  title : String
  content : String
  status : DocumentStatus
  document_metadata : DocumentMetadata
  comments : List String
  created_at : Nat
  updated_at : Nat
  is_deleted : Bool
deriving DecidableEq, Repr

/-- A row of the `document_versions` table
(`src/infra/adapters/outbound/sql/models.py`, lines 9-16). -/
structure SQLVersionRow where
  version_id : Nat
  document_id : Nat
  content : String
  document_metadata : DocumentMetadata
  comments : List String
  timestamp : Nat
deriving DecidableEq, Repr

/-- The relational store: both tables, each in insertion order. -/
structure SQLDB where
  docs : List SQLDocRow
  version_rows : List SQLVersionRow
deriving DecidableEq, Repr

namespace SQLMapper

/-- `SQLMapper.to_domain_document`
(`src/infra/adapters/outbound/sql/mapper.py`, lines 10-35): map a
`documents` row to a domain `Document`; the `versions` field is
explicitly set to the empty list. -/
def to_domain_document (r : SQLDocRow) : Document :=
  { id := r.id
    title := r.title
    content := r.content
    status := r.status
    metadata := r.document_metadata
    comments := r.comments
    versions := []
    created_at := r.created_at
    updated_at := r.updated_at
    is_deleted := r.is_deleted }

/-- `SQLMapper.to_domain_version`
(`src/infra/adapters/outbound/sql/mapper.py`, lines 38-58). -/
def to_domain_version (v : SQLVersionRow) : DocumentVersion :=
  { version_id := v.version_id
    content := v.content
    metadata := v.document_metadata
    comments := v.comments
    timestamp := v.timestamp }

/-- `SQLMapper.to_sql_document`
(`src/infra/adapters/outbound/sql/mapper.py`, lines 61-85). -/
def to_sql_document (d : Document) : SQLDocRow :=
  { id := d.id
    title := d.title
    content := d.content
    status := d.status
    document_metadata := d.metadata
    comments := d.comments
    created_at := d.created_at
    updated_at := d.updated_at
    is_deleted := d.is_deleted }

/-- `SQLMapper.to_sql_version`
(`src/infra/adapters/outbound/sql/mapper.py`, lines 88-110). -/
def to_sql_version (v : DocumentVersion) (document_id : Nat) : SQLVersionRow :=
  { version_id := v.version_id
    document_id := document_id
    content := v.content
    document_metadata := v.metadata
    comments := v.comments
    timestamp := v.timestamp }

end SQLMapper

namespace SQLAdapter

/-- `select(SQLDocument).where(id == i, is_deleted == False)` followed by
`.first()`: the first non-deleted row with the id. -/
def selectLive (rows : List SQLDocRow) (i : Nat) : Option SQLDocRow :=
  rows.find? (fun r => r.id == i && !r.is_deleted)

/-- `SQLDocumentAdapter.get_by_id`
(`src/infra/adapters/outbound/sql/adapter.py`, lines 22-51): select the
first non-deleted row with the id and map it (so the returned document
always has `versions = []`). -/
def get_by_id (db : SQLDB) (i : Nat) : Option Document :=
  (selectLive db.docs i).map SQLMapper.to_domain_document

/-- `SQLDocumentAdapter.create`
(`src/infra/adapters/outbound/sql/adapter.py`, lines 53-85): insert the
document row and one `document_versions` row per embedded version, then
re-select the row by id and return it mapped. -/
def create (db : SQLDB) (d : Document) : SQLDB × Option Document :=
  let db' : SQLDB :=
    { docs := db.docs ++ [SQLMapper.to_sql_document d]
      version_rows :=
        db.version_rows ++ d.versions.map (SQLMapper.to_sql_version · d.id) }
  (db', (db'.docs.find? (fun r => r.id == d.id)).map SQLMapper.to_domain_document)

/-- The `SQLDocumentVersion(...)` row `SQLDocumentAdapter.update` builds
and flushes from the row it found (`sql/adapter.py`, lines 114-123) — the
row's current `content`, `document_metadata` and `comments` with a fresh
version id and the current time — before the adapter crashes at
`data.metadata`; the rolled-back transaction then discards it. -/
def sqlVersionRowOf (r : SQLDocRow) (vid t : Nat) : SQLVersionRow :=
  { version_id := vid, document_id := r.id, content := r.content,
    document_metadata := r.document_metadata, comments := r.comments,
    timestamp := t }

/-- `SQLDocumentAdapter.update`
(`src/infra/adapters/outbound/sql/adapter.py`, lines 87-150): select the
first non-deleted row with the id; when absent return `None`.  When
found, the source builds and flushes the version row (`sqlVersionRowOf`)
inside the open transaction, assembles `update_data` from `data.title`,
`data.content`, `data.status`, and then reads `data.metadata` — an
attribute the update DTO does not define — raising `AttributeError`;
only `SQLAlchemyError` is caught, so the exception leaves
`session.begin()`, the transaction rolls back, and both tables are
unchanged. -/
def update (db : SQLDB) (i : Nat) (data : DocumentUpdateInput) :
    SQLDB × Except PyError (Option Document) :=
  match selectLive db.docs i with
  | none => (db, .ok none)
  | some _ => (db, .error .attributeError)

/-- `SQLDocumentAdapter.delete`
(`src/infra/adapters/outbound/sql/adapter.py`, lines 152-186): select the
first non-deleted row with the id; when absent return `False`; otherwise
run `UPDATE ... where(id == i)` setting `is_deleted` and `updated_at` on
every row with the id, and return `True`. -/
def delete (db : SQLDB) (i t : Nat) : SQLDB × Bool :=
  match selectLive db.docs i with
  | none => (db, false)
  | some _ =>
    ({ db with
       docs := db.docs.map (fun r =>
         if r.id == i then { r with is_deleted := true, updated_at := t } else r) },
     true)

/-- `SQLDocumentAdapter.restore`
(`src/infra/adapters/outbound/sql/adapter.py`, lines 220-255): run
`UPDATE ... where(id == i, is_deleted == True)` clearing the flag and
setting `updated_at`; when no row matched return `None`, otherwise
re-select the first row with the id and return it mapped. -/
def restore (db : SQLDB) (i t : Nat) : SQLDB × Option Document :=
  if db.docs.any (fun r => r.id == i && r.is_deleted) then
    let docs' := db.docs.map (fun r =>
      if r.id == i && r.is_deleted then
        { r with is_deleted := false, updated_at := t }
      else r)
    ({ db with docs := docs' },
     (docs'.find? (fun r => r.id == i)).map SQLMapper.to_domain_document)
  else (db, none)

/-- Descending insertion by `updated_at`, modelling the
`order_by(SQLDocument.updated_at.desc())` clause; a row is placed after
every already-placed row with a greater-or-equal `updated_at`. -/
def insertByUpdatedDesc (r : SQLDocRow) : List SQLDocRow → List SQLDocRow
  | [] => [r]
  | x :: xs =>
    if r.updated_at ≤ x.updated_at then x :: insertByUpdatedDesc r xs
    else r :: x :: xs

/-- Sort rows by `updated_at`, most recent first. -/
def sortByUpdatedDesc : List SQLDocRow → List SQLDocRow
  | [] => []
  | r :: rest => insertByUpdatedDesc r (sortByUpdatedDesc rest)

/-- `SQLDocumentAdapter.list_documents`
(`src/infra/adapters/outbound/sql/adapter.py`, lines 188-218): the
non-deleted rows ordered by `updated_at` descending, restricted to the
`offset`/`limit` window, each mapped to the domain. -/
def list_documents (db : SQLDB) (skip limit : Nat) : List Document :=
  ((((sortByUpdatedDesc (db.docs.filter (fun r => !r.is_deleted))).drop skip).take
      limit).map SQLMapper.to_domain_document)

end SQLAdapter

/-! ## Redis cache layer

`RedisCacheAdapter` (`src/infra/adapters/outbound/redis/adapter.py`)
keeps three key namespaces: per-document entries, per-document version
lists and per-window document lists.  Every method wraps its Redis client
calls in `try/except RedisError`; a read failure returns `None` and a
write failure returns normally.  Any other exception raised inside a
method — in particular the `KeyError` raised by `_serialize_document` and
`set_document_versions`, which index the non-existent `version['document']`
key of a `DocumentVersion` dict — is not caught and propagates.

A `DocumentVersion.dict()` has keys `version_id`, `content`, `metadata`,
`comments`, `timestamp`, so serializing any non-empty version list raises
`KeyError('document')`; serialization succeeds exactly when the version
list is empty, and an entry once stored deserializes back unchanged. -/

/-- The cache contents: association lists for the three namespaces
(`document:{id}`, `document_versions:{id}`,
`documents:skip={s}:limit={l}`). -/
structure CacheState where
  docs : List (Nat × Document) := []
  versionLists : List (Nat × List DocumentVersion) := []
  listWindows : List ((Nat × Nat) × List Document) := []
deriving DecidableEq, Repr

/-- Availability of the Redis client, one boolean per client call:
`false` means the call raises `RedisError`; an exhausted schedule means
every further call succeeds. -/
abbrev RedisSchedule := List Bool

/-- Consume the next slot of the availability schedule. -/
def schedNext : RedisSchedule → Bool × RedisSchedule
  | [] => (true, [])
  | b :: r => (b, r)

/-- Look a key up in an association list. -/
def alistLookup {κ β : Type} [BEq κ] (l : List (κ × β)) (k : κ) : Option β :=
  (l.find? (fun p => p.1 == k)).map (·.2)

/-- Store a key in an association list, replacing any previous entry. -/
def alistInsert {κ β : Type} [BEq κ] (l : List (κ × β)) (k : κ) (v : β) :
    List (κ × β) :=
  (k, v) :: l.filter (fun p => p.1 != k)

/-- Remove a key from an association list. -/
def alistErase {κ β : Type} [BEq κ] (l : List (κ × β)) (k : κ) :
    List (κ × β) :=
  l.filter (fun p => p.1 != k)

namespace RedisCacheAdapter

/-- `_serialize_document` succeeds exactly when the document's embedded
version list is empty; otherwise the loop over `doc_dict['versions']`
raises `KeyError` at `version['document']`. -/
def serializable (d : Document) : Bool := d.versions.isEmpty

/-- `RedisCacheAdapter.get_document`
(`src/infra/adapters/outbound/redis/adapter.py`, lines 46-56): on a
`RedisError` return `None` (a miss); on a hit deserialize, which raises
`KeyError` if the stored entry has a non-empty version list (never the
case for an entry stored by `set_document`). -/
def get_document (c : CacheState) (sched : RedisSchedule) (i : Nat) :
    Except PyError (Option Document) × RedisSchedule :=
  let (ok, sched') := schedNext sched
  if !ok then (.ok none, sched')
  else
    match alistLookup c.docs i with
    | none => (.ok none, sched')
    | some d => if serializable d then (.ok (some d), sched')
                else (.error .keyError, sched')

/-- `RedisCacheAdapter.set_document`
(`src/infra/adapters/outbound/redis/adapter.py`, lines 58-65):
serialization happens first and its `KeyError` propagates (only
`RedisError` is caught); a `RedisError` from `setex` is swallowed,
leaving the cache unchanged. -/
def set_document (c : CacheState) (sched : RedisSchedule) (d : Document) :
    Except PyError Unit × CacheState × RedisSchedule :=
  if !serializable d then (.error .keyError, c, sched)
  else
    let (ok, sched') := schedNext sched
    if ok then (.ok (), { c with docs := alistInsert c.docs d.id d }, sched')
    else (.ok (), c, sched')

/-- `RedisCacheAdapter.get_document_versions`
(`src/infra/adapters/outbound/redis/adapter.py`, lines 99-119): on a
`RedisError` return `None`; on a hit the deserialization loop indexes
`v_data['document']` for every element, so it raises `KeyError` unless
the stored list is empty. -/
def get_document_versions (c : CacheState) (sched : RedisSchedule) (i : Nat) :
    Except PyError (Option (List DocumentVersion)) × RedisSchedule :=
  let (ok, sched') := schedNext sched
  if !ok then (.ok none, sched')
  else
    match alistLookup c.versionLists i with
    | none => (.ok none, sched')
    | some vs => if vs.isEmpty then (.ok (some vs), sched')
                 else (.error .keyError, sched')

/-- `RedisCacheAdapter.set_document_versions`
(`src/infra/adapters/outbound/redis/adapter.py`, lines 121-137): the
serialization loop indexes `version_data['document']` for every element,
so it raises `KeyError` unless the list is empty; a `RedisError` from
`setex` is swallowed. -/
def set_document_versions (c : CacheState) (sched : RedisSchedule) (i : Nat)
    (vs : List DocumentVersion) :
    Except PyError Unit × CacheState × RedisSchedule :=
  if !vs.isEmpty then (.error .keyError, c, sched)
  else
    let (ok, sched') := schedNext sched
    if ok then
      (.ok (), { c with versionLists := alistInsert c.versionLists i vs }, sched')
    else (.ok (), c, sched')

/-- `RedisCacheAdapter.get_document_list`
(`src/infra/adapters/outbound/redis/adapter.py`, lines 67-79): on a
`RedisError` return `None`; on a hit every stored document is
deserialized, raising `KeyError` if any has a non-empty version list. -/
def get_document_list (c : CacheState) (sched : RedisSchedule)
    (skip limit : Nat) :
    Except PyError (Option (List Document)) × RedisSchedule :=
  let (ok, sched') := schedNext sched
  if !ok then (.ok none, sched')
  else
    match alistLookup c.listWindows (skip, limit) with
    | none => (.ok none, sched')
    | some ds => if ds.all serializable then (.ok (some ds), sched')
                 else (.error .keyError, sched')

/-- `RedisCacheAdapter.set_document_list`
(`src/infra/adapters/outbound/redis/adapter.py`, lines 81-89): serialize
every document first (`KeyError` propagates if any has a non-empty
version list); a `RedisError` from `setex` is swallowed. -/
def set_document_list (c : CacheState) (sched : RedisSchedule)
    (ds : List Document) (skip limit : Nat) :
    Except PyError Unit × CacheState × RedisSchedule :=
  if !ds.all serializable then (.error .keyError, c, sched)
  else
    let (ok, sched') := schedNext sched
    if ok then
      (.ok (),
       { c with listWindows := alistInsert c.listWindows (skip, limit) ds },
       sched')
    else (.ok (), c, sched')

/-- `RedisCacheAdapter.invalidate_document`
(`src/infra/adapters/outbound/redis/adapter.py`, lines 91-97): delete the
per-document key; a `RedisError` is swallowed, leaving the entry in
place. -/
def invalidate_document (c : CacheState) (sched : RedisSchedule) (i : Nat) :
    CacheState × RedisSchedule :=
  let (ok, sched') := schedNext sched
  if ok then ({ c with docs := alistErase c.docs i }, sched')
  else (c, sched')

/-- `RedisCacheAdapter.invalidate_document_versions`
(`src/infra/adapters/outbound/redis/adapter.py`, lines 139-145). -/
def invalidate_document_versions (c : CacheState) (sched : RedisSchedule)
    (i : Nat) : CacheState × RedisSchedule :=
  let (ok, sched') := schedNext sched
  if ok then ({ c with versionLists := alistErase c.versionLists i }, sched')
  else (c, sched')

/-- `RedisCacheAdapter.invalidate_document_list`
(`src/infra/adapters/outbound/redis/adapter.py`, lines 147-155): drop all
window keys; a `RedisError` is swallowed. -/
def invalidate_document_list (c : CacheState) (sched : RedisSchedule) :
    CacheState × RedisSchedule :=
  let (ok, sched') := schedNext sched
  if ok then ({ c with listWindows := [] }, sched')
  else (c, sched')

end RedisCacheAdapter

/-! ## Document service

`DocumentService` (`src/application/document/service.py`) composes the
repository port with the Redis cache.  It catches only `BaseAppException`
(and re-raises it), so an `AttributeError` raised by an adapter or a
`KeyError` escaping a cache method propagates to the caller.  The
repository port is abstracted as a `Backend` record, instantiated by the
Mongo and SQL adapters. -/

/-- An error surfaced by a service operation: the domain
`DocumentNotFoundException`, or an uncaught Python exception escaping the
repository adapter or a cache method. -/
inductive ServiceError where
  | documentNotFound
  | py (e : PyError)
deriving DecidableEq, Repr

/-- The repository port (`src/domain/ports/outbound/repository/document.py`)
over a backend store of type `σ`; fallible operations return `Except`
since the adapters can raise, and the current-time value of a mutation is
passed explicitly. -/
structure Backend (σ : Type) where
  get_by_id : σ → Nat → Except PyError (Option Document)
  update : σ → Nat → DocumentUpdateInput → σ × Except PyError (Option Document)
  delete : σ → Nat → Nat → σ × Bool
  restore : σ → Nat → Nat → σ × Except PyError (Option Document)
  list_documents : σ → Nat → Nat → Except PyError (List Document)

/-- The Mongo adapter as a repository backend. -/
def mongoBackend : Backend MongoDB :=
  { get_by_id := MongoAdapter.get_by_id
    update := MongoAdapter.update
    delete := MongoAdapter.delete
    restore := MongoAdapter.restore
    list_documents := MongoAdapter.list_documents }

/-- The SQL adapter as a repository backend (its reads cannot raise, so
they are wrapped in `.ok`). -/
def sqlBackend : Backend SQLDB :=
  { get_by_id := fun db i => .ok (SQLAdapter.get_by_id db i)
    update := SQLAdapter.update
    delete := SQLAdapter.delete
    restore := fun db i t =>
      let (db', r) := SQLAdapter.restore db i t
      (db', .ok r)
    list_documents := fun db skip limit =>
      .ok (SQLAdapter.list_documents db skip limit) }

/-- State visible to the service: the backend store, the cache contents
and the Redis availability schedule. -/
structure SysState (σ : Type) where
  repo : σ
  cache : CacheState := {}
  sched : RedisSchedule := []

namespace DocumentService

variable {σ : Type}

/-- `DocumentService.get_by_id` (`src/application/document/service.py`,
lines 18-33): consult the cache; on a hit return the cached document; on
a miss read the repository (whose exception, if any, propagates), raise
`DocumentNotFoundException` when absent, otherwise write through to the
cache and return. -/
def get_by_id (B : Backend σ) (st : SysState σ) (i : Nat) :
    Except ServiceError Document × SysState σ :=
  match RedisCacheAdapter.get_document st.cache st.sched i with
  | (.error e, s') => (.error (.py e), { st with sched := s' })
  | (.ok (some d), s') => (.ok d, { st with sched := s' })
  | (.ok none, s') =>
    match B.get_by_id st.repo i with
    | .error e => (.error (.py e), { st with sched := s' })
    | .ok none => (.error .documentNotFound, { st with sched := s' })
    | .ok (some d) =>
      match RedisCacheAdapter.set_document st.cache s' d with
      | (.error e, c, s) => (.error (.py e), { st with cache := c, sched := s })
      | (.ok _, c, s) => (.ok d, { st with cache := c, sched := s })

/-- `DocumentService.update` (`src/application/document/service.py`,
lines 48-65): read the current document through the repository (not the
cache), failing with `DocumentNotFoundException` when absent and
propagating any repository exception; delegate to the repository
`update`, likewise propagating its exception or failing when it returns
nothing; then write the updated document and its version list through to
the cache and invalidate every cached list window. -/
def update (B : Backend σ) (st : SysState σ) (i : Nat)
    (data : DocumentUpdateInput) : Except ServiceError Document × SysState σ :=
  match B.get_by_id st.repo i with
  | .error e => (.error (.py e), st)
  | .ok none => (.error .documentNotFound, st)
  | .ok (some _) =>
    let (repo', r) := B.update st.repo i data
    match r with
    | .error e => (.error (.py e), { st with repo := repo' })
    | .ok none => (.error .documentNotFound, { st with repo := repo' })
    | .ok (some u) =>
      match RedisCacheAdapter.set_document st.cache st.sched u with
      | (.error e, c, s) =>
        (.error (.py e), { repo := repo', cache := c, sched := s })
      | (.ok _, c1, s1) =>
        match RedisCacheAdapter.set_document_versions c1 s1 i u.versions with
        | (.error e, c, s) =>
          (.error (.py e), { repo := repo', cache := c, sched := s })
        | (.ok _, c2, s2) =>
          let (c3, s3) := RedisCacheAdapter.invalidate_document_list c2 s2
          (.ok u, { repo := repo', cache := c3, sched := s3 })

/-- `DocumentService.delete` (`src/application/document/service.py`,
lines 67-80): delegate to the repository soft delete; when it reports
`False`, raise `DocumentNotFoundException`; on success evict the
per-document entry, the cached version list and every list window. -/
def delete (B : Backend σ) (st : SysState σ) (i t : Nat) :
    Except ServiceError Bool × SysState σ :=
  let (repo', ok) := B.delete st.repo i t
  if ok then
    let (c1, s1) := RedisCacheAdapter.invalidate_document st.cache st.sched i
    let (c2, s2) := RedisCacheAdapter.invalidate_document_versions c1 s1 i
    let (c3, s3) := RedisCacheAdapter.invalidate_document_list c2 s2
    (.ok true, { repo := repo', cache := c3, sched := s3 })
  else (.error .documentNotFound, { st with repo := repo' })

/-- `DocumentService.restore` (`src/application/document/service.py`,
lines 96-109): delegate to the repository restore; propagate its
exception if it raises (the store change it made before raising
persists); when absent raise `DocumentNotFoundException`; on success
write the restored document and its version list through to the cache
and invalidate every list window. -/
def restore (B : Backend σ) (st : SysState σ) (i t : Nat) :
    Except ServiceError Document × SysState σ :=
  let (repo', r) := B.restore st.repo i t
  match r with
  | .error e => (.error (.py e), { st with repo := repo' })
  | .ok none => (.error .documentNotFound, { st with repo := repo' })
  | .ok (some d) =>
    match RedisCacheAdapter.set_document st.cache st.sched d with
    | (.error e, c, s) =>
      (.error (.py e), { repo := repo', cache := c, sched := s })
    | (.ok _, c1, s1) =>
      match RedisCacheAdapter.set_document_versions c1 s1 i d.versions with
      | (.error e, c, s) =>
        (.error (.py e), { repo := repo', cache := c, sched := s })
      | (.ok _, c2, s2) =>
        let (c3, s3) := RedisCacheAdapter.invalidate_document_list c2 s2
        (.ok d, { repo := repo', cache := c3, sched := s3 })

/-- `DocumentService.list_documents` (`src/application/document/service.py`,
lines 82-94): consult the cache under the exact window key — note that
`if cached_documents:` treats an empty cached list as a miss; on a miss
read the repository (propagating an exception), write the result through
under the window key and return it. -/
def list_documents (B : Backend σ) (st : SysState σ) (skip limit : Nat) :
    Except ServiceError (List Document) × SysState σ :=
  match RedisCacheAdapter.get_document_list st.cache st.sched skip limit with
  | (.error e, s') => (.error (.py e), { st with sched := s' })
  | (.ok r, s') =>
    match r with
    | some (d :: ds) => (.ok (d :: ds), { st with sched := s' })
    | _ =>
      match B.list_documents st.repo skip limit with
      | .error e => (.error (.py e), { st with sched := s' })
      | .ok ds =>
        match RedisCacheAdapter.set_document_list st.cache s' ds skip limit with
        | (.error e, c, s) => (.error (.py e), { st with cache := c, sched := s })
        | (.ok _, c, s) => (.ok ds, { st with cache := c, sched := s })

/-- `DocumentService.get_versions` (`src/application/document/service.py`,
lines 111-126): consult the versions cache — `if cached_versions:` treats
an empty cached list as a miss; on a miss fetch the document via the
repository (propagating an exception), raising `DocumentNotFoundException`
when absent, write its `versions` through to the versions cache and
return them. -/
def get_versions (B : Backend σ) (st : SysState σ) (i : Nat) :
    Except ServiceError (List DocumentVersion) × SysState σ :=
  match RedisCacheAdapter.get_document_versions st.cache st.sched i with
  | (.error e, s') => (.error (.py e), { st with sched := s' })
  | (.ok r, s') =>
    match r with
    | some (v :: vs) => (.ok (v :: vs), { st with sched := s' })
    | _ =>
      match B.get_by_id st.repo i with
      | .error e => (.error (.py e), { st with sched := s' })
      | .ok none => (.error .documentNotFound, { st with sched := s' })
      | .ok (some d) =>
        match RedisCacheAdapter.set_document_versions st.cache s' i d.versions with
        | (.error e, c, s) => (.error (.py e), { st with cache := c, sched := s })
        | (.ok _, c, s) => (.ok d.versions, { st with cache := c, sched := s })

end DocumentService

/-- The `ListDocuments` entry point of the gRPC inbound adapter
(`src/infra/adapters/inbound/grpc/adapter.py`, method `ListDocuments`):
construct the domain `DocumentListDTO` from the raw request — pydantic
validation runs here, before the service, repository or cache is touched
— and only then call `DocumentService.list_documents`. -/
def listDocumentsHandler {σ : Type} (B : Backend σ) (st : SysState σ)
    (skip limit : Int) :
    Except String (Except ServiceError (List Document)) × SysState σ :=
  match documentListDTOValidate skip limit with
  | .error m => (.error m, st)
  | .ok (s, l) =>
    let (r, st') := DocumentService.list_documents B st s l
    (.ok r, st')

/-! ## Call sequences against both backends

Machinery for comparing the two repository adapters on identical call
sequences.  A `RepoCall` is one mutating repository call; reads are
compared on the resulting stores. -/

/-- One mutating repository call.  `create` carries the validated fields
from which `DocumentService.create` builds a fresh `Document` (pydantic
defaults: empty version list, `is_deleted = False`, both timestamps set
at construction); `update` carries the update DTO the gRPC inbound
adapter constructs. -/
inductive RepoCall where
  | create (id : Nat) (title content : String) (status : DocumentStatus)
      (metadata : DocumentMetadata) (comments : List String) (t : Nat)
  | update (i : Nat) (data : DocumentUpdateInput)
  | delete (i t : Nat)
  | restore (i t : Nat)
deriving DecidableEq, Repr

/-- The fresh `Document` built from validated create input
(`src/domain/models/document.py` defaults: no versions, not deleted). -/
def newDocument (id : Nat) (title content : String) (status : DocumentStatus)
    (metadata : DocumentMetadata) (comments : List String) (t : Nat) :
    Document :=
  { id := id, title := title, content := content, status := status,
    metadata := metadata, comments := comments, versions := [],
    created_at := t, updated_at := t, is_deleted := false }

/-- Apply one call to the Mongo store (keeping whatever state the adapter
left behind when it raised). -/
def mongoStep (db : MongoDB) : RepoCall → MongoDB
  | .create id title content status metadata comments t =>
    (MongoAdapter.create db (newDocument id title content status metadata comments t)).1
  | .update i data => (MongoAdapter.update db i data).1
  | .delete i t => (MongoAdapter.delete db i t).1
  | .restore i t => (MongoAdapter.restore db i t).1

/-- Apply one call to the SQL store. -/
def sqlStep (db : SQLDB) : RepoCall → SQLDB
  | .create id title content status metadata comments t =>
    (SQLAdapter.create db (newDocument id title content status metadata comments t)).1
  | .update i data => (SQLAdapter.update db i data).1
  | .delete i t => (SQLAdapter.delete db i t).1
  | .restore i t => (SQLAdapter.restore db i t).1

/-- Run a call sequence against the Mongo backend from the empty store. -/
def mongoRun (cs : List RepoCall) : MongoDB := cs.foldl mongoStep []

/-- Run a call sequence against the SQL backend from the empty store. -/
def sqlRun (cs : List RepoCall) : SQLDB :=
  cs.foldl sqlStep { docs := [], version_rows := [] }

/-! ## Derived predicates -/

/-- Does a service result surface an uncaught Python exception (rather
than succeeding or failing with the domain not-found error)? -/
def pyFailure {α : Type} : Except ServiceError α → Bool
  | .error (.py _) => true
  | _ => false

/-- Well-formedness of the cache contents: every entry is serializable.
`set_document` and `set_document_list` raise before storing a document
with a non-empty embedded version list and `set_document_versions` raises
before storing a non-empty version list, so the code can only ever reach
well-formed cache states (the system starts from an empty cache). -/
def cacheWF (c : CacheState) : Bool :=
  c.docs.all (fun p => RedisCacheAdapter.serializable p.2) &&
  c.versionLists.all (fun p => p.2.isEmpty) &&
  c.listWindows.all (fun w => w.2.all RedisCacheAdapter.serializable)

/-- Decidable equality of `Except` results, to evaluate concrete
observations. -/
instance {ε α : Type} [DecidableEq ε] [DecidableEq α] :
    DecidableEq (Except ε α) := fun a b =>
  match a, b with
  | .error e, .error f =>
    if h : e = f then .isTrue (by rw [h])
    else .isFalse (fun hh => h (by cases hh; rfl))
  | .ok x, .ok y =>
    if h : x = y then .isTrue (by rw [h])
    else .isFalse (fun hh => h (by cases hh; rfl))
  | .error _, .ok _ => .isFalse (fun hh => Except.noConfusion hh)
  | .ok _, .error _ => .isFalse (fun hh => Except.noConfusion hh)

/-! ## Concrete sample data used by witnesses and counterexamples -/

/-- Sample metadata record. -/
def sampleMetadata : DocumentMetadata :=
  { author := "bob", tags := [], category := none }

/-- A freshly created sample document (no versions, not deleted). -/
def sampleDocument : Document :=
  { id := 1, title := "A", content := "x", status := .draft,
    metadata := sampleMetadata, comments := [], versions := [],
    created_at := 1, updated_at := 1, is_deleted := false }

/-- The same document already published — it differs from
`sampleDocument` only in `status`. -/
def samplePublished : Document := { sampleDocument with status := .published }

/-- The `documents` row storing `sampleDocument`. -/
def sampleRow : SQLDocRow := SQLMapper.to_sql_document sampleDocument

/-- SQL-backed system state holding just `sampleDocument`, empty cache,
fully available Redis. -/
def sampleSqlState : SysState SQLDB :=
  { repo := { docs := [sampleRow], version_rows := [] } }

/-- Mongo-backed system state holding just `sampleDocument`, empty cache,
fully available Redis. -/
def sampleMongoState : SysState MongoDB := { repo := [sampleDocument] }

/-- The call sequence run against both backends to compare them: create
id 1 at time 1, create id 2 at time 2, update id 2 at time 3. -/
def distinguishingCalls : List RepoCall :=
  [ .create 1 "A" "x" .draft sampleMetadata [] 1,
    .create 2 "B" "x" .draft sampleMetadata [] 2,
    .update 2 { title := some "B2" } ]

/-- The sample document soft-deleted. -/
def sampleDeleted : Document := { sampleDocument with is_deleted := true }

/-- The `documents` row storing `sampleDeleted`. -/
def sampleDeletedRow : SQLDocRow := SQLMapper.to_sql_document sampleDeleted

/-- Two live documents whose insertion order disagrees with recency:
id 1 was updated at time 5, id 2 at time 9. -/
def earlyDocument : Document := { sampleDocument with id := 1, updated_at := 5 }

/-- See `earlyDocument`. -/
def lateDocument : Document :=
  { sampleDocument with id := 2, title := "Z", updated_at := 9 }

/-- The `documents` row storing `earlyDocument`. -/
def earlyRow : SQLDocRow := SQLMapper.to_sql_document earlyDocument

/-- The `documents` row storing `lateDocument`. -/
def lateRow : SQLDocRow := SQLMapper.to_sql_document lateDocument

/-- A relational store holding the two rows in insertion order. -/
def pairSqlDB : SQLDB := { docs := [earlyRow, lateRow], version_rows := [] }

/-! ## Helper lemmas: Mongo adapter -/

/-- `MongoAdapter.delete` reports success exactly when a live record with
the id exists. -/
theorem mongoDelete_snd (db : MongoDB) (i t : Nat) :
    (MongoAdapter.delete db i t).2 = (MongoAdapter.findOne db i).isSome := by
  induction db with
  | nil => rfl
  | cons d rest ih =>
    by_cases h : (d.id == i && !d.is_deleted) = true
    · simp [MongoAdapter.delete, MongoAdapter.findOne, List.find?_cons_of_pos, h]
    · simp only [MongoAdapter.delete, h, if_neg, Bool.not_eq_true]
      simp only [MongoAdapter.findOne] at ih ⊢
      rw [List.find?_cons_of_neg _ (by simp_all)]
      simpa using ih

/-- Restoring an id with no soft-deleted record leaves the Mongo
collection unchanged and returns `None`. -/
theorem mongoRestore_no_match (db : MongoDB) (i t : Nat)
    (h : db.find? (fun d => d.id == i && d.is_deleted) = none) :
    MongoAdapter.restore db i t = (db, .ok none) := by
  induction db with
  | nil => rfl
  | cons d rest ih =>
    rw [List.find?] at h
    cases hp : (d.id == i && d.is_deleted) with
    | true => rw [hp] at h; simp at h
    | false =>
      rw [hp] at h
      have := ih h
      simp [MongoAdapter.restore, hp, this]

/-- An id absent from the collection is never found live. -/
theorem findOne_none_of_not_mem (db : MongoDB) (i : Nat)
    (h : i ∉ db.map Document.id) : MongoAdapter.findOne db i = none := by
  rw [MongoAdapter.findOne, List.find?_eq_none]
  intro d hd
  have : d.id ≠ i := fun he => h (he ▸ List.mem_map_of_mem Document.id hd)
  simp [this]

/-- After soft-deleting an id in a duplicate-free collection, the id has
no live record. -/
theorem findOne_after_delete (db : MongoDB) (i t : Nat)
    (hnd : (db.map Document.id).Nodup) :
    MongoAdapter.findOne (MongoAdapter.delete db i t).1 i = none := by
  induction db with
  | nil => rfl
  | cons d rest ih =>
    rw [List.map_cons] at hnd
    rcases List.nodup_cons.mp hnd with ⟨hni, hnd'⟩
    by_cases hp : (d.id == i && !d.is_deleted) = true
    · have hdi : d.id = i := by
        have h1 := (Bool.and_eq_true ..).mp hp
        simpa using h1.1
      simp only [MongoAdapter.delete, hp, if_pos]
      rw [MongoAdapter.findOne, List.find?]
      have hrest : MongoAdapter.findOne rest i = none := by
        refine findOne_none_of_not_mem rest i ?_
        rw [← hdi]
        exact hni
      simpa [MongoAdapter.findOne] using hrest
    · simp only [MongoAdapter.delete, hp, if_neg, Bool.not_eq_true]
      rw [MongoAdapter.findOne, List.find?]
      have hnp : ((MongoAdapter.delete rest i t).1.find?
          (fun d => d.id == i && !d.is_deleted)) = none := by
        simpa [MongoAdapter.findOne] using ih hnd'
      simpa [hp, MongoAdapter.findOne] using hnp

/-- After `SQLDocumentAdapter.delete`, the id has no live row. -/
theorem selectLive_after_delete (db : SQLDB) (i t : Nat) :
    SQLAdapter.selectLive (SQLAdapter.delete db i t).1.docs i = none := by
  cases hs : SQLAdapter.selectLive db.docs i with
  | none => simp [SQLAdapter.delete, hs]
  | some r =>
    simp only [SQLAdapter.delete, hs]
    rw [SQLAdapter.selectLive, List.find?_eq_none]
    intro x hx
    rcases List.mem_map.mp hx with ⟨r0, _, hr0⟩
    by_cases hid : (r0.id == i) = true
    · rw [← hr0]
      simp [hid]
    · rw [← hr0]
      simp [hid]

/-- The SQL restore on a store with no soft-deleted row under the id
leaves the store unchanged and reports `None`. -/
theorem sqlRestore_no_match (db : SQLDB) (i t : Nat)
    (h : db.docs.any (fun r => r.id == i && r.is_deleted) = false) :
    SQLAdapter.restore db i t = (db, none) := by
  simp [SQLAdapter.restore, h]

/-- Whatever `SQLDocumentAdapter.restore` returns went through the SQL
mapper, so its embedded version list is empty. -/
theorem sqlRestore_versions_empty (db : SQLDB) (i t : Nat) (d : Document)
    (h : (SQLAdapter.restore db i t).2 = some d) : d.versions = [] := by
  by_cases hc : db.docs.any (fun r => r.id == i && r.is_deleted) = true
  · simp only [SQLAdapter.restore, if_pos hc] at h
    rcases Option.map_eq_some'.mp h with ⟨r, _, hr⟩
    rw [← hr]
    rfl
  · simp [SQLAdapter.restore, hc] at h

/-- Every document returned by the SQL list query went through the SQL
mapper, so it is serializable (empty version list). -/
theorem sqlListDocuments_serializable (db : SQLDB) (s l : Nat) :
    (SQLAdapter.list_documents db s l).all RedisCacheAdapter.serializable =
      true := by
  rw [List.all_eq_true]
  intro d hd
  simp only [SQLAdapter.list_documents] at hd
  rcases List.mem_map.mp hd with ⟨r, _, hr⟩
  rw [← hr]
  rfl

/-! ## Helper lemmas: association lists and the cache -/

/-- Looking up an erased key misses. -/
theorem alistLookup_erase_self {β : Type} (l : List (Nat × β)) (k : Nat) :
    alistLookup (alistErase l k) k = none := by
  have h : (alistErase l k).find? (fun p => p.1 == k) = none := by
    rw [List.find?_eq_none]
    intro x hx
    have hne := (List.mem_filter.mp hx).2
    simp only [bne_iff_ne, ne_eq] at hne
    simp [hne]
  simp [alistLookup, h]

/-- Looking up a freshly stored key returns the stored value. -/
theorem alistLookup_insert_self {β : Type} (l : List (Nat × β)) (k : Nat)
    (v : β) : alistLookup (alistInsert l k v) k = some v := by
  simp [alistLookup, alistInsert, List.find?_cons_of_pos]

/-- Storing a key whose value satisfies a pointwise predicate preserves
`all` of that predicate. -/
theorem all_alistInsert {κ β : Type} [BEq κ] (l : List (κ × β)) (k : κ)
    (v : β) (p : κ × β → Bool) (hl : l.all p = true) (hv : p (k, v) = true) :
    (alistInsert l k v).all p = true := by
  simp only [alistInsert, List.all_cons, hv, Bool.true_and]
  rw [List.all_eq_true] at hl ⊢
  intro x hx
  exact hl x (List.mem_of_mem_filter hx)

/-- Erasing a key preserves `all` of a pointwise predicate. -/
theorem all_alistErase {κ β : Type} [BEq κ] (l : List (κ × β)) (k : κ)
    (p : κ × β → Bool) (hl : l.all p = true) :
    (alistErase l k).all p = true := by
  rw [List.all_eq_true] at hl ⊢
  intro x hx
  exact hl x (List.mem_of_mem_filter hx)

/-- A per-document entry of a well-formed cache is serializable. -/
theorem cacheWF_doc_serializable (c : CacheState) (i : Nat) (d : Document)
    (hwf : cacheWF c = true) (h : alistLookup c.docs i = some d) :
    RedisCacheAdapter.serializable d = true := by
  simp only [cacheWF, Bool.and_eq_true, List.all_eq_true] at hwf
  obtain ⟨⟨h1, _⟩, _⟩ := hwf
  rcases Option.map_eq_some'.mp h with ⟨p, hp, hpd⟩
  have hmem : p ∈ c.docs := List.mem_of_find?_eq_some hp
  rw [← hpd]
  exact h1 p hmem

/-- A version-list entry of a well-formed cache is empty. -/
theorem cacheWF_versions_empty (c : CacheState) (i : Nat)
    (vs : List DocumentVersion) (hwf : cacheWF c = true)
    (h : alistLookup c.versionLists i = some vs) : vs.isEmpty = true := by
  simp only [cacheWF, Bool.and_eq_true, List.all_eq_true] at hwf
  obtain ⟨⟨_, h2⟩, _⟩ := hwf
  rcases Option.map_eq_some'.mp h with ⟨p, hp, hpd⟩
  have hmem : p ∈ c.versionLists := List.mem_of_find?_eq_some hp
  rw [← hpd]
  exact h2 p hmem

/-- A window entry of a well-formed cache holds only serializable
documents. -/
theorem cacheWF_window_serializable (c : CacheState) (k : Nat × Nat)
    (ds : List Document) (hwf : cacheWF c = true)
    (h : alistLookup c.listWindows k = some ds) :
    ds.all RedisCacheAdapter.serializable = true := by
  simp only [cacheWF, Bool.and_eq_true, List.all_eq_true] at hwf
  obtain ⟨⟨_, _⟩, h3⟩ := hwf
  rcases Option.map_eq_some'.mp h with ⟨p, hp, hpd⟩
  have hmem : p ∈ c.listWindows := List.mem_of_find?_eq_some hp
  rw [← hpd, List.all_eq_true]
  exact h3 p hmem

/-- Writing a serializable document through returns normally. -/
theorem set_document_fst (c : CacheState) (sched : RedisSchedule)
    (d : Document) (h : RedisCacheAdapter.serializable d = true) :
    (RedisCacheAdapter.set_document c sched d).1 = .ok () := by
  rcases hsn : schedNext sched with ⟨ok, s'⟩
  cases ok <;> simp [RedisCacheAdapter.set_document, h, hsn]

/-- Writing an empty version list through returns normally. -/
theorem set_document_versions_fst (c : CacheState) (sched : RedisSchedule)
    (i : Nat) :
    (RedisCacheAdapter.set_document_versions c sched i []).1 = .ok () := by
  rcases hsn : schedNext sched with ⟨ok, s'⟩
  cases ok <;> simp [RedisCacheAdapter.set_document_versions, hsn]

/-- Writing a window of serializable documents through returns
normally. -/
theorem set_document_list_fst (c : CacheState) (sched : RedisSchedule)
    (ds : List Document) (s l : Nat)
    (h : ds.all RedisCacheAdapter.serializable = true) :
    (RedisCacheAdapter.set_document_list c sched ds s l).1 = .ok () := by
  rcases hsn : schedNext sched with ⟨ok, s'⟩
  cases ok <;> simp [RedisCacheAdapter.set_document_list, h, hsn]

/-! ## Helper lemmas: sorting of the SQL list query -/

/-- Descending insertion produces a permutation of consing. -/
theorem insertByUpdatedDesc_perm (r : SQLDocRow) (l : List SQLDocRow) :
    (SQLAdapter.insertByUpdatedDesc r l).Perm (r :: l) := by
  induction l with
  | nil => exact List.Perm.refl _
  | cons x xs ih =>
    by_cases h : r.updated_at ≤ x.updated_at
    · simp only [SQLAdapter.insertByUpdatedDesc, if_pos h]
      exact (ih.cons x).trans (List.Perm.swap r x xs)
    · simp [SQLAdapter.insertByUpdatedDesc, if_neg h]

/-- The sort is a permutation of its input. -/
theorem sortByUpdatedDesc_perm (l : List SQLDocRow) :
    (SQLAdapter.sortByUpdatedDesc l).Perm l := by
  induction l with
  | nil => exact List.Perm.refl _
  | cons r rest ih =>
    exact (insertByUpdatedDesc_perm r _).trans (ih.cons r)

/-- Descending insertion preserves the descending-`updated_at`
invariant. -/
theorem insertByUpdatedDesc_pairwise (r : SQLDocRow) (l : List SQLDocRow)
    (h : l.Pairwise (fun a b => b.updated_at ≤ a.updated_at)) :
    (SQLAdapter.insertByUpdatedDesc r l).Pairwise
      (fun a b => b.updated_at ≤ a.updated_at) := by
  induction l with
  | nil => simp [SQLAdapter.insertByUpdatedDesc]
  | cons x xs ih =>
    rcases List.pairwise_cons.mp h with ⟨hx, hxs⟩
    by_cases hle : r.updated_at ≤ x.updated_at
    · simp only [SQLAdapter.insertByUpdatedDesc, if_pos hle]
      refine List.pairwise_cons.mpr ⟨?_, ih hxs⟩
      intro b hb
      rcases List.mem_cons.mp
          ((insertByUpdatedDesc_perm r xs).mem_iff.mp hb) with hb | hb
      · exact hb ▸ hle
      · exact hx b hb
    · simp only [SQLAdapter.insertByUpdatedDesc, if_neg hle]
      refine List.pairwise_cons.mpr ⟨?_, h⟩
      intro b hb
      rcases List.mem_cons.mp hb with hb | hb
      · exact hb ▸ Nat.le_of_not_le hle
      · exact Nat.le_trans (hx b hb) (Nat.le_of_not_le hle)

/-- The sort output is descending in `updated_at`. -/
theorem sortByUpdatedDesc_pairwise (l : List SQLDocRow) :
    (SQLAdapter.sortByUpdatedDesc l).Pairwise
      (fun a b => b.updated_at ≤ a.updated_at) := by
  induction l with
  | nil => simp [SQLAdapter.sortByUpdatedDesc]
  | cons r rest ih => exact insertByUpdatedDesc_pairwise r _ ih

/-! ## Helper lemmas: the service update always fails -/

/-- On the relational backend every service `update` call fails: with no
live row the repository read reports absence and the service raises
`DocumentNotFoundException`; with a live row the adapter raises
`AttributeError` at `data.metadata`, the transaction rolls back, and the
service (which catches only `BaseAppException`) propagates it.  The
system state is unchanged either way. -/
theorem sqlServiceUpdate_eq (st : SysState SQLDB) (i : Nat)
    (data : DocumentUpdateInput) :
    DocumentService.update sqlBackend st i data =
      if (SQLAdapter.selectLive st.repo.docs i).isSome then
        (.error (.py .attributeError), st)
      else (.error .documentNotFound, st) := by
  cases h : SQLAdapter.selectLive st.repo.docs i with
  | none =>
    simp [DocumentService.update, sqlBackend, SQLAdapter.get_by_id, h]
  | some r =>
    simp [DocumentService.update, sqlBackend, SQLAdapter.get_by_id,
      SQLAdapter.update, h]

/-- On the document-store backend every service `update` call fails: the
service's repository read either reports absence (`DocumentNotFound`) or
reaches the mapper, which raises `AttributeError`.  The system state is
unchanged either way. -/
theorem mongoServiceUpdate_eq (st : SysState MongoDB) (i : Nat)
    (data : DocumentUpdateInput) :
    DocumentService.update mongoBackend st i data =
      if (MongoAdapter.findOne st.repo i).isSome then
        (.error (.py .attributeError), st)
      else (.error .documentNotFound, st) := by
  cases h : MongoAdapter.findOne st.repo i with
  | none =>
    simp [DocumentService.update, mongoBackend, MongoAdapter.get_by_id, h]
  | some d =>
    simp [DocumentService.update, mongoBackend, MongoAdapter.get_by_id, h,
      MongoMapper.to_domain_document, Except.map]

/-! ## Helper lemmas: the Mongo store stays empty -/

/-- One call from the empty Mongo store leaves it empty: `create` raises
in the mapper before inserting, `update`/`delete`/`restore` find
nothing. -/
theorem mongoStep_nil (c : RepoCall) : mongoStep [] c = [] := by
  cases c <;> rfl

/-- Every call sequence leaves the Mongo collection empty: no call ever
persists a record. -/
theorem mongoRun_nil (cs : List RepoCall) : mongoRun cs = [] := by
  induction cs with
  | nil => rfl
  | cons c cs ih =>
    show ((c :: cs).foldl mongoStep []) = []
    rw [List.foldl_cons, mongoStep_nil]
    exact ih

/-! ## Helper lemmas: cache well-formedness is preserved -/

/-- `set_document` keeps the cache well-formed (it raises before storing
a non-serializable document). -/
theorem cacheWF_set_document (c : CacheState) (sched : RedisSchedule)
    (d : Document) (hwf : cacheWF c = true)
    (hser : RedisCacheAdapter.serializable d = true) :
    cacheWF (RedisCacheAdapter.set_document c sched d).2.1 = true := by
  have hwf' := hwf
  simp only [cacheWF, Bool.and_eq_true] at hwf'
  obtain ⟨⟨h1, h2⟩, h3⟩ := hwf'
  rcases hsn : schedNext sched with ⟨ok, s'⟩
  cases ok with
  | false => simpa [RedisCacheAdapter.set_document, hser, hsn] using hwf
  | true =>
    have hins := all_alistInsert c.docs d.id d
      (fun p => RedisCacheAdapter.serializable p.2) h1 hser
    simp [RedisCacheAdapter.set_document, hser, hsn, cacheWF, hins, h2, h3]

/-- `set_document_versions` keeps the cache well-formed (it raises on any
non-empty list, so only the empty list is ever stored). -/
theorem cacheWF_set_document_versions (c : CacheState)
    (sched : RedisSchedule) (i : Nat) (hwf : cacheWF c = true) :
    cacheWF (RedisCacheAdapter.set_document_versions c sched i []).2.1 =
      true := by
  have hwf' := hwf
  simp only [cacheWF, Bool.and_eq_true] at hwf'
  obtain ⟨⟨h1, h2⟩, h3⟩ := hwf'
  rcases hsn : schedNext sched with ⟨ok, s'⟩
  cases ok with
  | false => simpa [RedisCacheAdapter.set_document_versions, hsn] using hwf
  | true =>
    have hins := all_alistInsert c.versionLists i []
      (fun p => p.2.isEmpty) h2 rfl
    simp [RedisCacheAdapter.set_document_versions, hsn, cacheWF, h1, hins, h3]

/-- `set_document_list` keeps the cache well-formed. -/
theorem cacheWF_set_document_list (c : CacheState) (sched : RedisSchedule)
    (ds : List Document) (s l : Nat) (hwf : cacheWF c = true)
    (hser : ds.all RedisCacheAdapter.serializable = true) :
    cacheWF (RedisCacheAdapter.set_document_list c sched ds s l).2.1 =
      true := by
  have hwf' := hwf
  simp only [cacheWF, Bool.and_eq_true] at hwf'
  obtain ⟨⟨h1, h2⟩, h3⟩ := hwf'
  rcases hsn : schedNext sched with ⟨ok, s'⟩
  cases ok with
  | false => simpa [RedisCacheAdapter.set_document_list, hser, hsn] using hwf
  | true =>
    have hins := all_alistInsert c.listWindows (s, l) ds
      (fun w => w.2.all RedisCacheAdapter.serializable) h3 hser
    simp [RedisCacheAdapter.set_document_list, hser, hsn, cacheWF, h1, h2,
      hins]

/-- `invalidate_document` keeps the cache well-formed. -/
theorem cacheWF_invalidate_document (c : CacheState)
    (sched : RedisSchedule) (i : Nat) (hwf : cacheWF c = true) :
    cacheWF (RedisCacheAdapter.invalidate_document c sched i).1 = true := by
  have hwf' := hwf
  simp only [cacheWF, Bool.and_eq_true] at hwf'
  obtain ⟨⟨h1, h2⟩, h3⟩ := hwf'
  rcases hsn : schedNext sched with ⟨ok, s'⟩
  cases ok with
  | false => simpa [RedisCacheAdapter.invalidate_document, hsn] using hwf
  | true =>
    have hdel := all_alistErase c.docs i
      (fun p => RedisCacheAdapter.serializable p.2) h1
    simp [RedisCacheAdapter.invalidate_document, hsn, cacheWF, hdel, h2, h3]

/-- `invalidate_document_versions` keeps the cache well-formed. -/
theorem cacheWF_invalidate_document_versions (c : CacheState)
    (sched : RedisSchedule) (i : Nat) (hwf : cacheWF c = true) :
    cacheWF (RedisCacheAdapter.invalidate_document_versions c sched i).1 =
      true := by
  have hwf' := hwf
  simp only [cacheWF, Bool.and_eq_true] at hwf'
  obtain ⟨⟨h1, h2⟩, h3⟩ := hwf'
  rcases hsn : schedNext sched with ⟨ok, s'⟩
  cases ok with
  | false =>
    simpa [RedisCacheAdapter.invalidate_document_versions, hsn] using hwf
  | true =>
    have hdel := all_alistErase c.versionLists i (fun p => p.2.isEmpty) h2
    simp [RedisCacheAdapter.invalidate_document_versions, hsn, cacheWF, h1,
      hdel, h3]

/-- `invalidate_document_list` keeps the cache well-formed. -/
theorem cacheWF_invalidate_document_list (c : CacheState)
    (sched : RedisSchedule) (hwf : cacheWF c = true) :
    cacheWF (RedisCacheAdapter.invalidate_document_list c sched).1 = true := by
  have hwf' := hwf
  simp only [cacheWF, Bool.and_eq_true] at hwf'
  obtain ⟨⟨h1, h2⟩, h3⟩ := hwf'
  rcases hsn : schedNext sched with ⟨ok, s'⟩
  cases ok with
  | false => simpa [RedisCacheAdapter.invalidate_document_list, hsn] using hwf
  | true =>
    simp [RedisCacheAdapter.invalidate_document_list, hsn, cacheWF, h1, h2]

/-! ## Helper lemmas: SQL-backed service operations never surface a
Python exception -/

/-- `DocumentService.get_by_id` over the relational backend with a
well-formed cache never surfaces a Python exception. -/
theorem sqlGetById_no_py (st : SysState SQLDB) (i : Nat)
    (hwf : cacheWF st.cache = true) :
    pyFailure (DocumentService.get_by_id sqlBackend st i).1 = false := by
  rcases hsn : schedNext st.sched with ⟨ok, s1⟩
  cases ok with
  | true =>
    cases hl : alistLookup st.cache.docs i with
    | some d =>
      have hser := cacheWF_doc_serializable st.cache i d hwf hl
      simp [DocumentService.get_by_id, RedisCacheAdapter.get_document, hsn,
        hl, hser, pyFailure]
    | none =>
      cases hrepo : SQLAdapter.selectLive st.repo.docs i with
      | none =>
        simp [DocumentService.get_by_id, RedisCacheAdapter.get_document, hsn,
          hl, sqlBackend, SQLAdapter.get_by_id, hrepo, pyFailure]
      | some r =>
        rcases hset : RedisCacheAdapter.set_document st.cache s1
            (SQLMapper.to_domain_document r) with ⟨e1, c1, s2⟩
        have he1 : e1 = .ok () := by
          have hh := set_document_fst st.cache s1
            (SQLMapper.to_domain_document r) rfl
          rw [hset] at hh
          exact hh
        subst he1
        simp [DocumentService.get_by_id, RedisCacheAdapter.get_document, hsn,
          hl, sqlBackend, SQLAdapter.get_by_id, hrepo, hset, pyFailure]
  | false =>
    cases hrepo : SQLAdapter.selectLive st.repo.docs i with
    | none =>
      simp [DocumentService.get_by_id, RedisCacheAdapter.get_document, hsn,
        sqlBackend, SQLAdapter.get_by_id, hrepo, pyFailure]
    | some r =>
      rcases hset : RedisCacheAdapter.set_document st.cache s1
          (SQLMapper.to_domain_document r) with ⟨e1, c1, s2⟩
      have he1 : e1 = .ok () := by
        have hh := set_document_fst st.cache s1
          (SQLMapper.to_domain_document r) rfl
        rw [hset] at hh
        exact hh
      subst he1
      simp [DocumentService.get_by_id, RedisCacheAdapter.get_document, hsn,
        sqlBackend, SQLAdapter.get_by_id, hrepo, hset, pyFailure]

/-- `DocumentService.list_documents` over the relational backend with a
well-formed cache never surfaces a Python exception. -/
theorem sqlList_no_py (st : SysState SQLDB) (s l : Nat)
    (hwf : cacheWF st.cache = true) :
    pyFailure (DocumentService.list_documents sqlBackend st s l).1 = false := by
  rcases hsn : schedNext st.sched with ⟨ok, s1⟩
  have hall := sqlListDocuments_serializable st.repo s l
  rcases hset : RedisCacheAdapter.set_document_list st.cache s1
      (SQLAdapter.list_documents st.repo s l) s l with ⟨e1, c1, s2⟩
  have he1 : e1 = .ok () := by
    have hh := set_document_list_fst st.cache s1
      (SQLAdapter.list_documents st.repo s l) s l hall
    rw [hset] at hh
    exact hh
  subst he1
  cases ok with
  | false =>
    simp [DocumentService.list_documents, RedisCacheAdapter.get_document_list,
      hsn, sqlBackend, hset, pyFailure]
  | true =>
    cases hl : alistLookup st.cache.listWindows (s, l) with
    | none =>
      simp [DocumentService.list_documents,
        RedisCacheAdapter.get_document_list, hsn, hl, sqlBackend, hset,
        pyFailure]
    | some ds =>
      have hser := cacheWF_window_serializable st.cache (s, l) ds hwf hl
      cases ds with
      | nil =>
        simp [DocumentService.list_documents,
          RedisCacheAdapter.get_document_list, hsn, hl, sqlBackend, hset,
          pyFailure]
      | cons d ds' =>
        simp [DocumentService.list_documents,
          RedisCacheAdapter.get_document_list, hsn, hl, hser, pyFailure]

/-- `DocumentService.get_versions` over the relational backend with a
well-formed cache never surfaces a Python exception. -/
theorem sqlGetVersions_no_py (st : SysState SQLDB) (i : Nat)
    (hwf : cacheWF st.cache = true) :
    pyFailure (DocumentService.get_versions sqlBackend st i).1 = false := by
  rcases hsn : schedNext st.sched with ⟨ok, s1⟩
  rcases hset : RedisCacheAdapter.set_document_versions st.cache s1 i [] with
    ⟨e1, c1, s2⟩
  have he1 : e1 = .ok () := by
    have hh := set_document_versions_fst st.cache s1 i
    rw [hset] at hh
    exact hh
  subst he1
  cases ok with
  | false =>
    cases hrepo : SQLAdapter.selectLive st.repo.docs i with
    | none =>
      simp [DocumentService.get_versions,
        RedisCacheAdapter.get_document_versions, hsn, sqlBackend,
        SQLAdapter.get_by_id, hrepo, pyFailure]
    | some r =>
      simp [DocumentService.get_versions,
        RedisCacheAdapter.get_document_versions, hsn, sqlBackend,
        SQLAdapter.get_by_id, hrepo, SQLMapper.to_domain_document, hset,
        pyFailure]
  | true =>
    cases hl : alistLookup st.cache.versionLists i with
    | none =>
      cases hrepo : SQLAdapter.selectLive st.repo.docs i with
      | none =>
        simp [DocumentService.get_versions,
          RedisCacheAdapter.get_document_versions, hsn, hl, sqlBackend,
          SQLAdapter.get_by_id, hrepo, pyFailure]
      | some r =>
        simp [DocumentService.get_versions,
          RedisCacheAdapter.get_document_versions, hsn, hl, sqlBackend,
          SQLAdapter.get_by_id, hrepo, SQLMapper.to_domain_document, hset,
          pyFailure]
    | some vs =>
      have hemp := cacheWF_versions_empty st.cache i vs hwf hl
      have hvs : vs = [] := List.isEmpty_iff.mp hemp
      subst hvs
      cases hrepo : SQLAdapter.selectLive st.repo.docs i with
      | none =>
        simp [DocumentService.get_versions,
          RedisCacheAdapter.get_document_versions, hsn, hl, sqlBackend,
          SQLAdapter.get_by_id, hrepo, pyFailure]
      | some r =>
        simp [DocumentService.get_versions,
          RedisCacheAdapter.get_document_versions, hsn, hl, sqlBackend,
          SQLAdapter.get_by_id, hrepo, SQLMapper.to_domain_document, hset,
          pyFailure]

/-- `DocumentService.delete` over the relational backend never surfaces a
Python exception. -/
theorem sqlDelete_no_py (st : SysState SQLDB) (i t : Nat) :
    pyFailure (DocumentService.delete sqlBackend st i t).1 = false := by
  rcases hD : SQLAdapter.delete st.repo i t with ⟨repo2, ok⟩
  cases ok with
  | false => simp [DocumentService.delete, sqlBackend, hD, pyFailure]
  | true =>
    rcases h1 : RedisCacheAdapter.invalidate_document st.cache st.sched i with
      ⟨c1, s1⟩
    rcases h2 : RedisCacheAdapter.invalidate_document_versions c1 s1 i with
      ⟨c2, s2⟩
    rcases h3 : RedisCacheAdapter.invalidate_document_list c2 s2 with ⟨c3, s3⟩
    simp [DocumentService.delete, sqlBackend, hD, h1, h2, h3, pyFailure]

/-- `DocumentService.restore` over the relational backend never surfaces
a Python exception. -/
theorem sqlRestore_no_py (st : SysState SQLDB) (i t : Nat) :
    pyFailure (DocumentService.restore sqlBackend st i t).1 = false := by
  rcases hR : SQLAdapter.restore st.repo i t with ⟨repo2, r⟩
  cases r with
  | none => simp [DocumentService.restore, sqlBackend, hR, pyFailure]
  | some d =>
    have hv : d.versions = [] :=
      sqlRestore_versions_empty st.repo i t d (by rw [hR])
    have hser : RedisCacheAdapter.serializable d = true := by
      simp [RedisCacheAdapter.serializable, hv]
    rcases hset : RedisCacheAdapter.set_document st.cache st.sched d with
      ⟨e1, c1, s1⟩
    have he1 : e1 = .ok () := by
      have hh := set_document_fst st.cache st.sched d hser
      rw [hset] at hh
      exact hh
    subst he1
    rcases hsetv : RedisCacheAdapter.set_document_versions c1 s1 i [] with
      ⟨e2, c2, s2⟩
    have he2 : e2 = .ok () := by
      have hh := set_document_versions_fst c1 s1 i
      rw [hsetv] at hh
      exact hh
    subst he2
    rcases h3 : RedisCacheAdapter.invalidate_document_list c2 s2 with ⟨c3, s3⟩
    simp [DocumentService.restore, sqlBackend, hR, hset, hv, hsetv, h3,
      pyFailure]

/-! ## Helper lemma: the get-versions endgame for C10 -/

/-- When the versions cache holds nothing (or the empty list) for an id,
Redis is healthy, and the repository read of the id does not report a
clean absence, `get_versions` does not fail with `DocumentNotFound`. -/
theorem getVersions_no_cached_versions_never_notFound {σ : Type}
    (B : Backend σ) (st : SysState σ) (i : Nat)
    (hsched : st.sched = [])
    (hmiss : alistLookup st.cache.versionLists i = none ∨
             alistLookup st.cache.versionLists i = some [])
    (hget : B.get_by_id st.repo i ≠ .ok none) :
    (DocumentService.get_versions B st i).1 ≠ .error .documentNotFound := by
  rcases hmiss with hm | hm
  all_goals
    cases hg : B.get_by_id st.repo i with
    | error e =>
      simp [DocumentService.get_versions,
        RedisCacheAdapter.get_document_versions, hsched, schedNext, hm, hg]
    | ok o =>
      cases o with
      | none => exact absurd hg hget
      | some d =>
        cases hv : d.versions with
        | nil =>
          simp [DocumentService.get_versions,
            RedisCacheAdapter.get_document_versions,
            RedisCacheAdapter.set_document_versions, hsched, schedNext, hm,
            hg, hv]
        | cons v vs =>
          simp [DocumentService.get_versions,
            RedisCacheAdapter.get_document_versions,
            RedisCacheAdapter.set_document_versions, hsched, schedNext, hm,
            hg, hv]

/-! ## C1 -/

/-- C1.  "For every document id and every sequence of N successful update
operations applied to it, get_versions(id) returns a list of length N,
oldest first, with version k holding the pre-update-(k+1) field values."
The code violates the evident intent: no update ever succeeds.  On both
backends every service `update` call fails — with `DocumentNotFound` when
the id has no live record, and otherwise with the `AttributeError` raised
at `data.metadata` (SQL, rolling back the flushed version row) or in the
Mongo mapper — so no sequence of N ≥ 1 successful updates exists, the
state never changes from an update, and `get_versions` keeps returning
the empty list where the repository's own test expects length 1. -/
theorem update_always_raises_no_version_history :
    (∀ (st : SysState SQLDB) (i : Nat) (data : DocumentUpdateInput),
        (DocumentService.update sqlBackend st i data).1 =
            .error .documentNotFound ∨
        (DocumentService.update sqlBackend st i data).1 =
            .error (.py .attributeError)) ∧
    (∀ (st : SysState MongoDB) (i : Nat) (data : DocumentUpdateInput),
        (DocumentService.update mongoBackend st i data).1 =
            .error .documentNotFound ∨
        (DocumentService.update mongoBackend st i data).1 =
            .error (.py .attributeError)) ∧
    DocumentService.update sqlBackend sampleSqlState 1 { title := some "B" } =
      (.error (.py .attributeError), sampleSqlState) ∧
    (DocumentService.get_versions sqlBackend sampleSqlState 1).1 = .ok [] := by
  refine ⟨?_, ?_, rfl, rfl⟩
  · intro st i data
    rw [sqlServiceUpdate_eq]
    cases h : (SQLAdapter.selectLive st.repo.docs i).isSome <;> simp [h]
  · intro st i data
    rw [mongoServiceUpdate_eq]
    cases h : (MongoAdapter.findOne st.repo i).isSome <;> simp [h]

/-! ## C2 -/

/-- C2.  "Every DocumentVersion snapshot appended by update(id,
partial_data) is a full copy of the mutable document fields — content,
metadata, comments, and status — as they existed immediately before the
update."  The code violates this twice over: no snapshot is ever
persisted — both adapters raise `AttributeError` at `data.metadata`
before committing, leaving both stores unchanged (the SQL transaction
rolls the flushed version row back) and the service state untouched —
and the snapshot value the adapters do construct (`mongoSnapshotOf`,
`sqlVersionRowOf`) has no `status` field, so two pre-states differing
only in `status` give identical snapshots. -/
theorem versionSnapshot_never_persisted_status_blind :
    (∀ (db : SQLDB) (i : Nat) (data : DocumentUpdateInput),
        (SQLAdapter.update db i data).1 = db) ∧
    (∀ (db : MongoDB) (i : Nat) (data : DocumentUpdateInput),
        (MongoAdapter.update db i data).1 = db) ∧
    (DocumentService.update sqlBackend sampleSqlState 1
        { content := some "y" }).2 = sampleSqlState ∧
    (DocumentService.update mongoBackend sampleMongoState 1
        { content := some "y" }).2 = sampleMongoState ∧
    sampleDocument.status ≠ samplePublished.status ∧
    mongoSnapshotOf sampleDocument 7 3 = mongoSnapshotOf samplePublished 7 3 ∧
    SQLAdapter.sqlVersionRowOf sampleRow 7 3 =
      SQLAdapter.sqlVersionRowOf (SQLMapper.to_sql_document samplePublished) 7 3 := by
  refine ⟨?_, ?_, rfl, rfl, by decide, by decide, by decide⟩
  · intro db i data
    cases h : SQLAdapter.selectLive db.docs i <;> simp [SQLAdapter.update, h]
  · intro db i data
    cases h : MongoAdapter.findOne db i <;> simp [MongoAdapter.update, h]

/-! ## C3 -/

/-- C3.  "Identical call sequences against the document-store backend and
the relational backend produce identical externally observed
Document/DocumentVersion field values."  The code violates this for every
sequence containing a `create`: on the document store every mapper call
raises `AttributeError` (it reads attributes `MongoDocument` and the
domain `Document` do not define), so `create` never inserts and the Mongo
collection stays empty under every call sequence, with `list_documents`
forever returning the empty list — while the relational backend persists
the creates: after the distinguishing sequence it lists titles
`["B", "A"]` and accepts a further create that the document store fails
with `AttributeError`. -/
theorem backendEquivalence_broken_by_mongo_mapper :
    (∀ cs : List RepoCall, mongoRun cs = []) ∧
    (∀ (cs : List RepoCall) (s l : Nat),
        MongoAdapter.list_documents (mongoRun cs) s l = .ok []) ∧
    (SQLAdapter.list_documents (sqlRun distinguishingCalls) 0 10).map
        Document.title = ["B", "A"] ∧
    (MongoAdapter.create (mongoRun distinguishingCalls)
        (newDocument 3 "C" "z" .draft sampleMetadata [] 4)).2 =
      .error .attributeError ∧
    (SQLAdapter.create (sqlRun distinguishingCalls)
        (newDocument 3 "C" "z" .draft sampleMetadata [] 4)).2.map
        Document.title = some "C" := by
  refine ⟨mongoRun_nil, ?_, by decide, rfl, by decide⟩
  intro cs s l
  rw [mongoRun_nil]
  simp [MongoAdapter.list_documents, mapExcept]

/-! ## C4 -/

/-- C4.  "After a successful update(id, data) an immediately following
get_by_id(id) returns the updated document state, never a stale cached
pre-update value."  The code violates the evident intent by making the
premise unreachable: on both backends the service `update` never returns
successfully (its result is never `.ok`), because the adapters raise
`AttributeError` at `data.metadata` before committing, so no update is
ever applied — the concrete run shows the update failing with the
uncaught exception, the state unchanged, and the immediately following
`get_by_id` still returning the pre-update document. -/
theorem successful_update_unreachable_getById_stale :
    (∀ (st : SysState SQLDB) (i : Nat) (data : DocumentUpdateInput),
        (DocumentService.update sqlBackend st i data).1.isOk = false) ∧
    (∀ (st : SysState MongoDB) (i : Nat) (data : DocumentUpdateInput),
        (DocumentService.update mongoBackend st i data).1.isOk = false) ∧
    DocumentService.update sqlBackend sampleSqlState 1 { title := some "B" } =
      (.error (.py .attributeError), sampleSqlState) ∧
    (DocumentService.get_by_id sqlBackend
        (DocumentService.update sqlBackend sampleSqlState 1
          { title := some "B" }).2 1).1 = .ok sampleDocument := by
  refine ⟨?_, ?_, rfl, rfl⟩
  · intro st i data
    rw [sqlServiceUpdate_eq]
    cases h : (SQLAdapter.selectLive st.repo.docs i).isSome <;>
      simp [h, Except.isOk, Except.toBool]
  · intro st i data
    rw [mongoServiceUpdate_eq]
    cases h : (MongoAdapter.findOne st.repo i).isSome <;>
      simp [h, Except.isOk, Except.toBool]

/-! ## C5 -/

/-- C5 counterexample.  The claim says `list_documents` returns the
window's non-deleted documents (ordered by recency) on both backends.
On the document store it returns no documents at all whenever the window
is non-empty: with one live document in the window, the mapper raises
`AttributeError` at the first record. -/
theorem mongoList_raises_on_live_document :
    sampleDocument.is_deleted = false ∧
    MongoAdapter.list_documents [sampleDocument] 0 10 =
      .error .attributeError := by
  exact ⟨rfl, rfl⟩

/-- C5 as amended: on the relational backend `list_documents` returns
only non-deleted documents, at most `limit` of them, ordered
most-recently-updated first; on the document-store backend
`list_documents` never returns a document — the result is the empty list
when the restricted window is empty and the uncaught `AttributeError` of
the mapper otherwise. -/
theorem listDocuments_window_properties :
    (∀ (db : SQLDB) (skip limit : Nat) d,
        d ∈ SQLAdapter.list_documents db skip limit → d.is_deleted = false) ∧
    (∀ (db : SQLDB) (skip limit : Nat),
        (SQLAdapter.list_documents db skip limit).length ≤ limit) ∧
    (∀ (db : SQLDB) (skip limit : Nat),
        (SQLAdapter.list_documents db skip limit).Pairwise
          (fun a b => b.updated_at ≤ a.updated_at)) ∧
    (∀ (db : MongoDB) (skip limit : Nat),
        MongoAdapter.list_documents db skip limit = .ok [] ∨
        MongoAdapter.list_documents db skip limit =
          .error .attributeError) := by
  refine ⟨?_, ?_, ?_, ?_⟩
  · intro db skip limit d hd
    rcases List.mem_map.mp hd with ⟨r, hr, hmap⟩
    have h1 : r ∈ (SQLAdapter.sortByUpdatedDesc
        (db.docs.filter (fun r => !r.is_deleted))).drop skip :=
      List.mem_of_mem_take hr
    have h2 : r ∈ SQLAdapter.sortByUpdatedDesc
        (db.docs.filter (fun r => !r.is_deleted)) :=
      List.mem_of_mem_drop h1
    have h3 : r ∈ db.docs.filter (fun r => !r.is_deleted) :=
      (sortByUpdatedDesc_perm _).mem_iff.mp h2
    have h4 := (List.mem_filter.mp h3).2
    rw [← hmap]
    simp [SQLMapper.to_domain_document] at h4 ⊢
    exact h4
  · intro db skip limit
    simp only [SQLAdapter.list_documents, List.length_map, List.length_take]
    exact Nat.min_le_left limit _
  · intro db skip limit
    have hs := sortByUpdatedDesc_pairwise
      (db.docs.filter (fun r => !r.is_deleted))
    have hd : ((SQLAdapter.sortByUpdatedDesc
        (db.docs.filter (fun r => !r.is_deleted))).drop skip).Pairwise
        (fun a b => b.updated_at ≤ a.updated_at) :=
      hs.sublist (List.drop_sublist skip _)
    have ht : (((SQLAdapter.sortByUpdatedDesc
        (db.docs.filter (fun r => !r.is_deleted))).drop skip).take
          limit).Pairwise (fun a b => b.updated_at ≤ a.updated_at) :=
      hd.sublist (List.take_sublist limit _)
    exact List.pairwise_map.mpr ht
  · intro db skip limit
    cases hw : ((db.filter (fun d => !d.is_deleted)).drop skip).take limit with
    | nil =>
      left
      simp [MongoAdapter.list_documents, hw, mapExcept]
    | cons d rest =>
      right
      simp [MongoAdapter.list_documents, hw, mapExcept,
        MongoMapper.to_domain_document]

/-- Witness for the amended C5 at a concrete input: the relational store
with the two sample rows lists `lateDocument`, which is non-deleted. -/
theorem listDocuments_window_properties_witness :
    lateDocument ∈ SQLAdapter.list_documents pairSqlDB 0 10 ∧
    lateDocument.is_deleted = false := by
  have hmem : lateDocument ∈ SQLAdapter.list_documents pairSqlDB 0 10 := by
    decide
  exact ⟨hmem, listDocuments_window_properties.1 pairSqlDB 0 10 lateDocument
    hmem⟩

/-! ## C6 -/

/-- C6.  `delete(id)` on an already-deleted or absent document fails with
`DocumentNotFound` rather than silently succeeding, and `restore(id)` on
a document that is not currently deleted fails with `DocumentNotFound`,
on both backends: the adapters report the missing/wrong-state target
(`find_one(..., is_deleted == False)` respectively the
`is_deleted == True` filter) and `DocumentService` converts that report
into `DocumentNotFoundException`. -/
theorem delete_restore_wrong_state_not_found :
    (∀ (st : SysState MongoDB) (i t : Nat),
        MongoAdapter.findOne st.repo i = none →
        (DocumentService.delete mongoBackend st i t).1 =
          .error .documentNotFound) ∧
    (∀ (st : SysState MongoDB) (i t : Nat),
        st.repo.find? (fun d => d.id == i && d.is_deleted) = none →
        (DocumentService.restore mongoBackend st i t).1 =
          .error .documentNotFound) ∧
    (∀ (st : SysState SQLDB) (i t : Nat),
        SQLAdapter.selectLive st.repo.docs i = none →
        (DocumentService.delete sqlBackend st i t).1 =
          .error .documentNotFound) ∧
    (∀ (st : SysState SQLDB) (i t : Nat),
        st.repo.docs.any (fun r => r.id == i && r.is_deleted) = false →
        (DocumentService.restore sqlBackend st i t).1 =
          .error .documentNotFound) := by
  refine ⟨?_, ?_, ?_, ?_⟩
  · intro st i t h
    have hd : (MongoAdapter.delete st.repo i t).2 = false := by
      rw [mongoDelete_snd, h]; rfl
    simp [DocumentService.delete, mongoBackend, hd]
  · intro st i t h
    have hr := mongoRestore_no_match st.repo i t h
    simp [DocumentService.restore, mongoBackend, hr]
  · intro st i t h
    simp [DocumentService.delete, sqlBackend, SQLAdapter.delete, h]
  · intro st i t h
    have hr := sqlRestore_no_match st.repo i t h
    simp [DocumentService.restore, sqlBackend, hr]

/-- Witness for C6: deleting an already-deleted document and restoring a
live document fail with `DocumentNotFound` on both backends, at concrete
states. -/
theorem delete_restore_wrong_state_not_found_witness :
    (DocumentService.delete mongoBackend { repo := [sampleDeleted] } 1 5).1 =
        .error .documentNotFound ∧
    (DocumentService.restore mongoBackend sampleMongoState 1 5).1 =
        .error .documentNotFound ∧
    (DocumentService.delete sqlBackend
        { repo := { docs := [sampleDeletedRow], version_rows := [] } } 1 5).1 =
        .error .documentNotFound ∧
    (DocumentService.restore sqlBackend sampleSqlState 1 5).1 =
        .error .documentNotFound := by
  refine ⟨?_, ?_, ?_, ?_⟩
  · exact delete_restore_wrong_state_not_found.1
      { repo := [sampleDeleted] } 1 5 (by decide)
  · exact delete_restore_wrong_state_not_found.2.1
      sampleMongoState 1 5 (by decide)
  · exact delete_restore_wrong_state_not_found.2.2.1
      { repo := { docs := [sampleDeletedRow], version_rows := [] } } 1 5
      (by decide)
  · exact delete_restore_wrong_state_not_found.2.2.2
      sampleSqlState 1 5 (by decide)

/-! ## C7 -/

/-- C7.  `list_documents` fails with a validation error when `skip < 0`
or `limit` lies outside `[1, 100]`: the gRPC entry point constructs the
domain `DocumentListDTO` first, so the pydantic bounds fire before the
service runs, and the system state — repository, cache and even the Redis
availability schedule — is left untouched, i.e. no repository or cache
access is made. -/
theorem listDocuments_rejects_bad_window :
    ∀ {σ : Type} (B : Backend σ) (st : SysState σ) (skip limit : Int),
      skip < 0 ∨ limit < 1 ∨ 100 < limit →
      ∃ m, listDocumentsHandler B st skip limit = (.error m, st) := by
  intro σ B st skip limit h
  by_cases hs : skip < 0
  · exact ⟨"skip must be greater than or equal to 0",
      by simp [listDocumentsHandler, documentListDTOValidate, hs]⟩
  · have hl : limit < 1 ∨ limit > 100 := by tauto
    exact ⟨"limit out of range",
      by simp [listDocumentsHandler, documentListDTOValidate, hs, hl]⟩

/-- Witness for C7 at concrete inputs: `skip = -1` and `limit = 101` are
rejected with the state unchanged. -/
theorem listDocuments_rejects_bad_window_witness :
    (∃ m, listDocumentsHandler sqlBackend sampleSqlState (-1) 10 =
        (.error m, sampleSqlState)) ∧
    (∃ m, listDocumentsHandler sqlBackend sampleSqlState 0 101 =
        (.error m, sampleSqlState)) := by
  constructor
  · exact listDocuments_rejects_bad_window sqlBackend sampleSqlState (-1) 10
      (Or.inl (by decide))
  · exact listDocuments_rejects_bad_window sqlBackend sampleSqlState 0 101
      (Or.inr (Or.inr (by decide)))

/-! ## C8 -/

/-- C8 counterexample.  The claim says a whitespace-only title supplied
on update, and any empty or whitespace-only comments entry, is rejected
with `ValidationError`.  The domain `DocumentUpdateDTO` validator
`prevent_empty_string` only rejects the exact empty string, so the
whitespace-only title `" "` is accepted on update; and the comments
validators on both create and update test `if v and not v.strip()`, so
the empty-string entry `""` (falsy) is accepted on both. -/
theorem updateValidation_accepts_whitespace_and_empty_comment :
    pyStrip " " = "" ∧
    documentUpdateDTOValidate { title := some " " } =
      .ok { title := some " " } ∧
    documentUpdateDTOValidate { comments := some [""] } =
      .ok { comments := some [""] } ∧
    (documentCreateDTOValidate
        { title := "a", content := "x", status := .draft, author := "b",
          tags := [], category := none, comments := [""] }).isOk = true := by
  exact ⟨by decide, rfl, rfl, rfl⟩

/-- C8 as amended: on create, an empty or whitespace-only `title`,
`content` or `author` is rejected, and a non-empty whitespace-only
comments entry is rejected, but an empty-string comments entry passes the
comment check; on update, a supplied `title`, `content` or `author` is
rejected exactly when it is the empty string — any non-empty value
(whitespace-only included, within the length bounds) is accepted — and
comments entries behave as on create: a non-empty whitespace-only entry
is rejected, an empty-string entry is skipped by the check. -/
theorem emptiness_validation_behavior :
    (∀ d : DocumentCreateInput,
        pyStrip d.title = "" ∨ pyStrip d.content = "" ∨ pyStrip d.author = "" →
        (documentCreateDTOValidate d).isOk = false) ∧
    (∀ (d : DocumentCreateInput) (v : String), v ∈ d.comments → v ≠ "" →
        pyStrip v = "" → (documentCreateDTOValidate d).isOk = false) ∧
    (∀ d : DocumentCreateInput, (documentCreateDTOValidate d).isOk = true →
        (documentCreateDTOValidate
          { d with comments := "" :: d.comments }).isOk = true) ∧
    (∀ d : DocumentUpdateInput,
        d.title = some "" ∨ d.content = some "" ∨ d.author = some "" →
        (documentUpdateDTOValidate d).isOk = false) ∧
    (∀ s : String, s ≠ "" → s.length ≤ 255 →
        (documentUpdateDTOValidate { title := some s }).isOk = true) ∧
    (∀ s : String, s ≠ "" →
        (documentUpdateDTOValidate { content := some s }).isOk = true) ∧
    (∀ s : String, s ≠ "" → s.length ≤ 100 →
        (documentUpdateDTOValidate { author := some s }).isOk = true) ∧
    (∀ (d : DocumentUpdateInput) (v : String), v ∈ d.comments.getD [] →
        v ≠ "" → pyStrip v = "" →
        (documentUpdateDTOValidate d).isOk = false) ∧
    (∀ (d : DocumentUpdateInput) (cs : List String),
        (documentUpdateDTOValidate { d with comments := some cs }).isOk =
          true →
        (documentUpdateDTOValidate
          { d with comments := some ("" :: cs) }).isOk = true) := by
  refine ⟨?_, ?_, ?_, ?_, ?_, ?_, ?_, ?_, ?_⟩
  · intro d h
    simp only [documentCreateDTOValidate]
    split_ifs <;> simp_all [Except.isOk, Except.toBool]
  · intro d v hv hne hstrip
    simp only [documentCreateDTOValidate]
    split_ifs with h1 h2 h3 h4 h5 <;> try rfl
    exact absurd (List.any_eq_true.mpr ⟨v, hv, by simp [hne, hstrip]⟩) h5
  · intro d h
    simp only [documentCreateDTOValidate] at h ⊢
    split_ifs at h ⊢ <;> simp_all [Except.isOk, Except.toBool]
  · intro d h
    simp only [documentUpdateDTOValidate]
    split_ifs <;> simp_all [Except.isOk, Except.toBool]
  · intro s hne hlen
    have h1 : ¬ (some s = some "") := by simp [hne]
    have h2 : ¬ (255 < s.length) := Nat.not_lt.mpr hlen
    simp only [documentUpdateDTOValidate, Option.getD, h1, h2, if_false,
      if_neg h1, if_neg h2]
    rw [if_neg (by decide : ¬ (100 < "x".length))]
    rfl
  · intro s hne
    have h1 : ¬ (some s = some "") := by simp [hne]
    simp only [documentUpdateDTOValidate, Option.getD, h1, if_false,
      if_neg h1]
    rw [if_neg (by decide : ¬ (255 < "x".length)),
      if_neg (by decide : ¬ (100 < "x".length))]
    rfl
  · intro s hne hlen
    have h1 : ¬ (some s = some "") := by simp [hne]
    have h2 : ¬ (100 < s.length) := Nat.not_lt.mpr hlen
    simp only [documentUpdateDTOValidate, Option.getD, h1, h2, if_false,
      if_neg h1, if_neg h2]
    rw [if_neg (by decide : ¬ (255 < "x".length))]
    rfl
  · intro d v hv hne hstrip
    simp only [documentUpdateDTOValidate]
    split_ifs with h1 h2 h3 h4 h5 h6 <;> try rfl
    exact absurd (List.any_eq_true.mpr ⟨v, hv, by simp [hne, hstrip]⟩) h6
  · intro d cs h
    simp only [documentUpdateDTOValidate, Option.getD] at h ⊢
    split_ifs at h ⊢ <;>
      simp_all [Except.isOk, Except.toBool, List.any_cons]

/-- Witness for the amended C8 at concrete inputs: a whitespace-only
title on create is rejected; an empty-string title on update is rejected;
a whitespace-only non-empty comment entry on update is rejected; a
whitespace-only content and author on update are accepted; prepending an
empty-string comment entry keeps an accepted update input accepted. -/
theorem emptiness_validation_behavior_witness :
    (documentCreateDTOValidate
        { title := " ", content := "x", status := .draft, author := "a",
          tags := [], category := none, comments := [] }).isOk = false ∧
    (documentUpdateDTOValidate { title := some "" }).isOk = false ∧
    (documentUpdateDTOValidate { comments := some [" "] }).isOk = false ∧
    (documentUpdateDTOValidate { content := some " " }).isOk = true ∧
    (documentUpdateDTOValidate { author := some " " }).isOk = true ∧
    (documentUpdateDTOValidate
        ({ comments := some [""] } : DocumentUpdateInput)).isOk = true := by
  refine ⟨?_, ?_, ?_, ?_, ?_, ?_⟩
  · exact emptiness_validation_behavior.1 _ (Or.inl (by decide))
  · exact emptiness_validation_behavior.2.2.2.1 _ (Or.inl rfl)
  · exact emptiness_validation_behavior.2.2.2.2.2.2.2.1
      { comments := some [" "] } " " (by decide) (by decide) (by decide)
  · exact emptiness_validation_behavior.2.2.2.2.2.1 " " (by decide)
  · exact emptiness_validation_behavior.2.2.2.2.2.2.1 " " (by decide)
      (by decide)
  · exact emptiness_validation_behavior.2.2.2.2.2.2.2.2
      {} [] (by rfl)

/-! ## C9 -/

/-- C9.  A cache failure never fails the surrounding operation.  (i) The
only failure the Redis client can raise, `RedisError`, is caught around
every call: a failed read is a miss and a failed write is swallowed with
the cache unchanged.  (ii) The serializers' `KeyError` (on any non-empty
version list) is unreachable: the write methods raise it before storing
anything, so every cache mutation preserves well-formedness (`cacheWF`,
holding the initial empty cache), and (iii) on a well-formed cache no
relational-backed service operation ever surfaces a Python exception —
each operation's outcome is the repository's: reads return the
repository's answer or the domain not-found error, and `update`'s outcome
does not depend on the cache contents or on Redis availability at all.
(On the document-store backend the failures that do occur are raised by
the repository adapter itself, not by the cache.) -/
theorem redisFailures_never_fail_operations :
    (∀ (c : CacheState) (rest : RedisSchedule) (i : Nat),
        RedisCacheAdapter.get_document c (false :: rest) i = (.ok none, rest)) ∧
    (∀ (c : CacheState) (rest : RedisSchedule) (i : Nat),
        RedisCacheAdapter.get_document_versions c (false :: rest) i =
          (.ok none, rest)) ∧
    (∀ (c : CacheState) (rest : RedisSchedule) (s l : Nat),
        RedisCacheAdapter.get_document_list c (false :: rest) s l =
          (.ok none, rest)) ∧
    (∀ (c : CacheState) (rest : RedisSchedule) (d : Document),
        RedisCacheAdapter.serializable d = true →
        RedisCacheAdapter.set_document c (false :: rest) d =
          (.ok (), c, rest)) ∧
    (∀ (c : CacheState) (rest : RedisSchedule) (i : Nat),
        RedisCacheAdapter.set_document_versions c (false :: rest) i [] =
          (.ok (), c, rest)) ∧
    (∀ (c : CacheState) (rest : RedisSchedule) (ds : List Document)
        (s l : Nat), ds.all RedisCacheAdapter.serializable = true →
        RedisCacheAdapter.set_document_list c (false :: rest) ds s l =
          (.ok (), c, rest)) ∧
    (∀ (c : CacheState) (sched : RedisSchedule) (d : Document),
        cacheWF c = true → RedisCacheAdapter.serializable d = true →
        cacheWF (RedisCacheAdapter.set_document c sched d).2.1 = true) ∧
    (∀ (c : CacheState) (sched : RedisSchedule) (i : Nat),
        cacheWF c = true →
        cacheWF (RedisCacheAdapter.set_document_versions c sched i []).2.1 =
          true) ∧
    (∀ (c : CacheState) (sched : RedisSchedule) (ds : List Document)
        (s l : Nat), cacheWF c = true →
        ds.all RedisCacheAdapter.serializable = true →
        cacheWF (RedisCacheAdapter.set_document_list c sched ds s l).2.1 =
          true) ∧
    (∀ (c : CacheState) (sched : RedisSchedule) (i : Nat), cacheWF c = true →
        cacheWF (RedisCacheAdapter.invalidate_document c sched i).1 = true ∧
        cacheWF
          (RedisCacheAdapter.invalidate_document_versions c sched i).1 =
            true ∧
        cacheWF (RedisCacheAdapter.invalidate_document_list c sched).1 =
          true) ∧
    (∀ (st : SysState SQLDB) (i : Nat), cacheWF st.cache = true →
        pyFailure (DocumentService.get_by_id sqlBackend st i).1 = false) ∧
    (∀ (st : SysState SQLDB) (s l : Nat), cacheWF st.cache = true →
        pyFailure (DocumentService.list_documents sqlBackend st s l).1 =
          false) ∧
    (∀ (st : SysState SQLDB) (i : Nat), cacheWF st.cache = true →
        pyFailure (DocumentService.get_versions sqlBackend st i).1 = false) ∧
    (∀ (st : SysState SQLDB) (i t : Nat),
        pyFailure (DocumentService.delete sqlBackend st i t).1 = false) ∧
    (∀ (st : SysState SQLDB) (i t : Nat),
        pyFailure (DocumentService.restore sqlBackend st i t).1 = false) ∧
    (∀ (st : SysState SQLDB) (i : Nat) (data : DocumentUpdateInput)
        (c2 : CacheState) (s2 : RedisSchedule),
        (DocumentService.update sqlBackend st i data).1 =
          (DocumentService.update sqlBackend
            { repo := st.repo, cache := c2, sched := s2 } i data).1) := by
  refine ⟨fun c rest i => rfl, fun c rest i => rfl, fun c rest s l => rfl,
    ?_, fun c rest i => rfl, ?_, cacheWF_set_document,
    cacheWF_set_document_versions, cacheWF_set_document_list, ?_,
    sqlGetById_no_py, sqlList_no_py, sqlGetVersions_no_py, sqlDelete_no_py,
    sqlRestore_no_py, ?_⟩
  · intro c rest d h
    simp [RedisCacheAdapter.set_document, h, schedNext]
  · intro c rest ds s l h
    simp [RedisCacheAdapter.set_document_list, h, schedNext]
  · intro c sched i hwf
    exact ⟨cacheWF_invalidate_document c sched i hwf,
      cacheWF_invalidate_document_versions c sched i hwf,
      cacheWF_invalidate_document_list c sched hwf⟩
  · intro st i data c2 s2
    rw [sqlServiceUpdate_eq, sqlServiceUpdate_eq]
    cases h : (SQLAdapter.selectLive st.repo.docs i).isSome <;> simp [h]

/-- Witness for C9 at concrete inputs, discharging each hypothesis: a
failed write of the (serializable) sample document is swallowed; a window
write with a failed Redis call is swallowed; the cache-write and
invalidation primitives keep the empty cache well-formed; and the
relational-backed read operations on the sample state report no Python
failure. -/
theorem redisFailures_never_fail_operations_witness :
    RedisCacheAdapter.serializable sampleDocument = true ∧
    RedisCacheAdapter.set_document {} [false] sampleDocument =
      (.ok (), {}, []) ∧
    RedisCacheAdapter.set_document_list {} [false] [sampleDocument] 0 10 =
      (.ok (), {}, []) ∧
    cacheWF ({} : CacheState) = true ∧
    cacheWF (RedisCacheAdapter.set_document {} [] sampleDocument).2.1 =
      true ∧
    cacheWF (RedisCacheAdapter.set_document_versions {} [] 1 []).2.1 = true ∧
    cacheWF
      (RedisCacheAdapter.set_document_list {} [] [sampleDocument] 0 10).2.1 =
        true ∧
    cacheWF (RedisCacheAdapter.invalidate_document {} [] 1).1 = true ∧
    pyFailure (DocumentService.get_by_id sqlBackend sampleSqlState 1).1 =
      false ∧
    pyFailure
      (DocumentService.list_documents sqlBackend sampleSqlState 0 10).1 =
        false ∧
    pyFailure (DocumentService.get_versions sqlBackend sampleSqlState 1).1 =
      false := by
  refine ⟨rfl, ?_, ?_, rfl, ?_, ?_, ?_, ?_, ?_, ?_, ?_⟩
  · exact redisFailures_never_fail_operations.2.2.2.1 {} [] sampleDocument rfl
  · exact redisFailures_never_fail_operations.2.2.2.2.2.1 {} []
      [sampleDocument] 0 10 (by decide)
  · exact redisFailures_never_fail_operations.2.2.2.2.2.2.1 {} []
      sampleDocument rfl rfl
  · exact redisFailures_never_fail_operations.2.2.2.2.2.2.2.1 {} [] 1 rfl
  · exact redisFailures_never_fail_operations.2.2.2.2.2.2.2.2.1 {} []
      [sampleDocument] 0 10 rfl (by decide)
  · exact (redisFailures_never_fail_operations.2.2.2.2.2.2.2.2.2.1 {} [] 1
      rfl).1
  · exact redisFailures_never_fail_operations.2.2.2.2.2.2.2.2.2.2.1
      sampleSqlState 1 rfl
  · exact redisFailures_never_fail_operations.2.2.2.2.2.2.2.2.2.2.2.1
      sampleSqlState 0 10 rfl
  · exact redisFailures_never_fail_operations.2.2.2.2.2.2.2.2.2.2.2.2.1
      sampleSqlState 1 rfl

/-! ## C10 -/

/-- C10.  After a soft delete (which evicts the cached version list), a
subsequent `get_versions(id)` fails with `DocumentNotFound` rather than
returning the preserved version history, until the document is restored —
after a restore that the repository does not answer with a clean absence,
`get_versions` no longer fails with `DocumentNotFound`.  Stated
generically over the repository backend (with the repository-level facts
as hypotheses) and discharged for both adapters: the Mongo adapter
(duplicate-free ids) and the SQL adapter make a deleted id invisible to
`get_by_id` — the not-found path returns `None` cleanly, without touching
the crashing Mongo mapper. -/
theorem getVersions_not_found_while_deleted :
    (∀ {σ : Type} (B : Backend σ) (st : SysState σ) (i t : Nat),
        st.sched = [] →
        (B.delete st.repo i t).2 = true →
        B.get_by_id (B.delete st.repo i t).1 i = .ok none →
        (DocumentService.delete B st i t).1 = .ok true ∧
        (DocumentService.get_versions B
          (DocumentService.delete B st i t).2 i).1 =
            .error .documentNotFound) ∧
    (∀ {σ : Type} (B : Backend σ) (st1 : SysState σ) (i t : Nat),
        st1.sched = [] →
        alistLookup st1.cache.versionLists i = none →
        (B.restore st1.repo i t).2 ≠ .ok none →
        B.get_by_id (B.restore st1.repo i t).1 i ≠ .ok none →
        (DocumentService.get_versions B
          (DocumentService.restore B st1 i t).2 i).1 ≠
            .error .documentNotFound) ∧
    (∀ (db : MongoDB) (i t : Nat), (db.map Document.id).Nodup →
        MongoAdapter.findOne db i ≠ none →
        (MongoAdapter.delete db i t).2 = true ∧
        MongoAdapter.get_by_id (MongoAdapter.delete db i t).1 i = .ok none) ∧
    (∀ (db : SQLDB) (i t : Nat), SQLAdapter.selectLive db.docs i ≠ none →
        (SQLAdapter.delete db i t).2 = true ∧
        SQLAdapter.get_by_id (SQLAdapter.delete db i t).1 i = none) := by
  refine ⟨?_, ?_, ?_, ?_⟩
  · intro σ B st i t hsched hdel hget
    rcases hD : B.delete st.repo i t with ⟨repo2, ok⟩
    rw [hD] at hdel hget
    have hok : ok = true := hdel
    subst hok
    constructor
    · simp [DocumentService.delete, hD]
    · simp only [DocumentService.delete, hD]
      simp only [RedisCacheAdapter.invalidate_document,
        RedisCacheAdapter.invalidate_document_versions,
        RedisCacheAdapter.invalidate_document_list, hsched, schedNext]
      simp [DocumentService.get_versions,
        RedisCacheAdapter.get_document_versions, schedNext,
        alistLookup_erase_self, hget]
  · intro σ B st1 i t hsched hmiss hres hget
    rcases hR : B.restore st1.repo i t with ⟨repo2, r⟩
    have hres' : r ≠ .ok none := by rw [hR] at hres; exact hres
    have hget' : B.get_by_id repo2 i ≠ .ok none := by
      rw [hR] at hget; exact hget
    cases r with
    | error e =>
      have hstate : (DocumentService.restore B st1 i t).2 =
          { repo := repo2, cache := st1.cache, sched := st1.sched } := by
        simp [DocumentService.restore, hR]
      rw [hstate]
      exact getVersions_no_cached_versions_never_notFound B _ i hsched
        (Or.inl hmiss) hget'
    | ok o =>
      cases o with
      | none => exact absurd rfl hres'
      | some d =>
        by_cases hser : RedisCacheAdapter.serializable d = true
        · have hv : d.versions = [] := List.isEmpty_iff.mp hser
          have hstate : (DocumentService.restore B st1 i t).2 =
              ⟨repo2,
               { docs := alistInsert st1.cache.docs d.id d,
                 versionLists := alistInsert st1.cache.versionLists i [],
                 listWindows := [] }, []⟩ := by
            simp [DocumentService.restore, hR, RedisCacheAdapter.set_document,
              hser, RedisCacheAdapter.set_document_versions, hv,
              RedisCacheAdapter.invalidate_document_list, hsched, schedNext]
          rw [hstate]
          refine getVersions_no_cached_versions_never_notFound B _ i rfl ?_
            hget'
          right
          exact alistLookup_insert_self _ _ _
        · have hserf : RedisCacheAdapter.serializable d = false := by
            simpa using hser
          have hstate : (DocumentService.restore B st1 i t).2 =
              { repo := repo2, cache := st1.cache, sched := st1.sched } := by
            simp [DocumentService.restore, hR,
              RedisCacheAdapter.set_document, hserf]
          rw [hstate]
          exact getVersions_no_cached_versions_never_notFound B _ i hsched
            (Or.inl hmiss) hget'
  · intro db i t hnd hsome
    constructor
    · rw [mongoDelete_snd]
      cases h : MongoAdapter.findOne db i with
      | none => exact absurd h hsome
      | some d => rfl
    · have h := findOne_after_delete db i t hnd
      simp [MongoAdapter.get_by_id, h]
  · intro db i t hsome
    cases hs : SQLAdapter.selectLive db.docs i with
    | none => exact absurd hs hsome
    | some r =>
      constructor
      · simp [SQLAdapter.delete, hs]
      · rw [SQLAdapter.get_by_id, selectLive_after_delete]
        rfl

/-- Witness for C10 at concrete states: delete the sample document on
both backends, observe `get_versions` fail with `DocumentNotFound`, then
restore on the document-store backend — which commits the un-delete
before its return value raises — and observe `get_versions` no longer
fail with `DocumentNotFound`. -/
theorem getVersions_not_found_while_deleted_witness :
    (DocumentService.get_versions mongoBackend
        (DocumentService.delete mongoBackend sampleMongoState 1 5).2 1).1 =
      .error .documentNotFound ∧
    (DocumentService.get_versions sqlBackend
        (DocumentService.delete sqlBackend sampleSqlState 1 5).2 1).1 =
      .error .documentNotFound ∧
    (DocumentService.get_versions mongoBackend
        (DocumentService.restore mongoBackend
          (DocumentService.delete mongoBackend sampleMongoState 1 5).2 1
          6).2 1).1 ≠ .error .documentNotFound := by
  refine ⟨?_, ?_, ?_⟩
  · exact (getVersions_not_found_while_deleted.1 mongoBackend
      sampleMongoState 1 5 rfl (by decide) (by decide)).2
  · exact (getVersions_not_found_while_deleted.1 sqlBackend
      sampleSqlState 1 5 rfl (by decide) (by decide)).2
  · exact getVersions_not_found_while_deleted.2.1 mongoBackend
      (DocumentService.delete mongoBackend sampleMongoState 1 5).2 1 6
      rfl (by decide) (by decide) (by decide)

end GrpcMicroservice









